import Mathlib

/-!
# Form-submission API: handler variant and server variant

A shallow embedding of `3-tier-app/src-serverless/lambda/index.js` (the handler
variant, namespace `Lambda`) and `3-tier-app/src-container/api/server.js` (the
server variant, namespace `Server`), followed by theorems about validation,
record construction, dispatch and error handling.

Modelling conventions.
* A JavaScript value that comes out of `JSON.parse` is a `JSValue`; `undefined`
  is the value of a property that is absent.  Numbers are the integers, each
  standing for the Number value nearest to it (the program only tests a number
  for truthiness and prints it).
* A JavaScript string is a Lean `String`.  The pattern class `[^\s@]` and `trim`
  treat every code unit outside the white-space set alike, so reading a string
  by code points instead of UTF-16 code units changes no result.
* Asynchronous calls are run to completion one after the other; a rejected
  promise is a thrown `JSError`.
* The database is a table of rows together with a log of what was asked of it;
  failures of the driver are injected through `DbFaults`.
-/

/-! ## Errors and numbers -/

/-- What a `throw` (or a rejected promise) carries: the class of the error and its
`message`.  The text of a TypeError is chosen by the engine; the model writes a
description in its place and no theorem depends on it. -/
inductive JSError where
  | syntaxError (message : String)
  | typeError (message : String)
  | error (message : String)

namespace JSError

/-- The property `error.message`. -/
def message : JSError → String
  | syntaxError m => m
  | typeError m => m
  | error m => m

/-- The test `error instanceof SyntaxError`. -/
def isSyntaxError : JSError → Bool
  | syntaxError _ => true
  | _ => false

end JSError

/-- The Number value nearest to a natural number: 53 significant bits, ties to even;
`none` when the result is `Infinity`. -/
def roundToNumber (m : Nat) : Option Nat :=
  if m < 2 ^ 53 then some m
  else
    let unit := 2 ^ (Nat.log2 m + 1 - 53)
    let q := m / unit
    let r := m % unit
    let v := (if unit < 2 * r || (unit == 2 * r && q % 2 == 1) then q + 1 else q) * unit
    if v < 2 ^ 1024 then some v else none

/-- The decimal `s × 10^e` with the fewest digits `s` that converts to the Number value
`v`, searched from one digit upwards (`e` downwards); of two candidates with the same
number of digits the one nearer to `v` is taken, the even one when they are equally
near. -/
def shortestDecimal (v : Nat) : Nat → Nat
  | 0 => v
  | e + 1 =>
    let scale := 10 ^ (e + 1)
    let lo := v / scale * scale
    let hi := lo + scale
    let okLo := roundToNumber lo == some v
    let okHi := roundToNumber hi == some v
    if okLo && okHi then
      if v - lo < hi - v then lo
      else if hi - v < v - lo then hi
      else if (v / scale) % 2 == 0 then lo else hi
    else if okLo then lo
    else if okHi then hi
    else shortestDecimal v e

/-- Removes the zeros at the end of a list of digits. -/
def stripZeros (digits : List Char) : List Char :=
  (digits.reverse.dropWhile (fun c => c == '0')).reverse

/-- Number::toString for a natural number: the digits in full below `10^21`, in
exponent form from there on. -/
def naturalToString (m : Nat) : String :=
  match roundToNumber m with
  | none => "Infinity"
  | some v =>
    let c := shortestDecimal v ((toString v).length - 1)
    let digits := (toString c).data
    if digits.length ≤ 21 then toString c
    else
      match stripZeros digits with
      | [] => "0"
      | [d] => String.mk [d] ++ "e+" ++ toString (digits.length - 1)
      | d :: more => String.mk (d :: '.' :: more) ++ "e+" ++ toString (digits.length - 1)

/-- Number::toString for an integer of the payload, which stands for the Number value
nearest to it. -/
def numberToString (n : Int) : String :=
  if n < 0 then "-" ++ naturalToString n.natAbs else naturalToString n.natAbs

/-! ## JavaScript values -/

/-- Values produced by `JSON.parse`, plus `undefined` for an absent property. -/
inductive JSValue where
  | undefined
  | null
  | bool (b : Bool)
  | num (n : Int)
  | str (s : String)
  | arr (elems : List JSValue)
  | obj (fields : List (String × JSValue))

namespace JSValue

/-- ToBoolean: `undefined`, `null`, `false`, `0` and `""` are falsy, every other
value (every array and every object included) is truthy. -/
def truthy : JSValue → Bool
  | undefined => false
  | null => false
  | bool b => b
  | num n => n != 0
  | str s => s != ""
  | arr _ => true
  | obj _ => true

/-- Property read `v.key` on a value that is neither `undefined` nor `null`:
an object yields its own property, and no primitive or array wrapper carries
any of the property names the program reads. -/
def getProp (v : JSValue) (key : String) : JSValue :=
  match v with
  | obj fields =>
    match fields.find? (fun kv => kv.1 == key) with
    | some kv => kv.2
    | none => undefined
  | _ => undefined

/-- Whether destructuring or a property read on the value throws a TypeError. -/
def isNullish : JSValue → Bool
  | undefined => true
  | null => true
  | _ => false

/-- Whether the value is a string primitive. -/
def isString : JSValue → Bool
  | str _ => true
  | _ => false

/-- Joins strings with a separator, as `Array.prototype.join` does. -/
def joinWith (sep : String) : List String → String
  | [] => ""
  | [x] => x
  | x :: y :: rest => x ++ sep ++ joinWith sep (y :: rest)

mutual
/-- ToString, the coercion `RegExp.prototype.test` applies to its argument.  An array
is joined with commas.  An object without an own property `toString` prints through
`Object.prototype.toString`; with one (which, coming from JSON, is never callable)
neither `toString` nor `valueOf` yields a primitive and the conversion throws a
TypeError. -/
def toStringJS : JSValue → Except JSError String
  | undefined => .ok "undefined"
  | null => .ok "null"
  | bool true => .ok "true"
  | bool false => .ok "false"
  | num n => .ok (numberToString n)
  | str s => .ok s
  | arr elems =>
    match elemStrings elems with
    | .error e => .error e
    | .ok parts => .ok (joinWith "," parts)
  | obj fields =>
    if fields.any (fun kv => kv.1 == "toString") then
      .error (.typeError "Cannot convert object to primitive value")
    else .ok "[object Object]"
/-- The strings `Array.prototype.join` puts between the separators, converted from left
to right: `undefined` and `null` elements print as the empty string. -/
def elemStrings : List JSValue → Except JSError (List String)
  | [] => .ok []
  | undefined :: rest =>
    match elemStrings rest with
    | .error e => .error e
    | .ok parts => .ok ("" :: parts)
  | null :: rest =>
    match elemStrings rest with
    | .error e => .error e
    | .ok parts => .ok ("" :: parts)
  | v :: rest =>
    match toStringJS v with
    | .error e => .error e
    | .ok s =>
      match elemStrings rest with
      | .error e => .error e
      | .ok parts => .ok (s :: parts)
end

end JSValue

/-! ## White space, `trim` and the email pattern -/

/-- Code points matched by `\s` and removed by `String.prototype.trim`
(WhiteSpace and LineTerminator of ECMAScript). -/
def isWhiteSpace (c : Char) : Bool :=
  c.toNat == 0x09 || c.toNat == 0x0A || c.toNat == 0x0B || c.toNat == 0x0C ||
  c.toNat == 0x0D || c.toNat == 0x20 || c.toNat == 0xA0 || c.toNat == 0x1680 ||
  (0x2000 ≤ c.toNat && c.toNat ≤ 0x200A) || c.toNat == 0x2028 || c.toNat == 0x2029 ||
  c.toNat == 0x202F || c.toNat == 0x205F || c.toNat == 0x3000 || c.toNat == 0xFEFF

/-- The characters of `s.trim()`. -/
def trimChars (l : List Char) : List Char :=
  (l.dropWhile isWhiteSpace).rdropWhile isWhiteSpace

/-- `String.prototype.trim`. -/
def jsTrim (s : String) : String := ⟨trimChars s.data⟩

/-- The fragment of regular-expression syntax that the email pattern uses. -/
inductive Regex where
  | lit (c : Char)
  | noneOf (excluded : Char → Bool)
  | seq (r s : Regex)
  | plus (r : Regex)

/-- All remainders after one to `n` successive matches of `step`. -/
def repeatStep (step : List Char → List (List Char)) : Nat → List Char → List (List Char)
  | 0, _ => []
  | n + 1, l => (step l).flatMap (fun rest => rest :: repeatStep step n rest)

namespace Regex

/-- All ways the expression can match a prefix of the input, each given by the
input that is left over (the backtracking choices of the matcher). -/
def run : Regex → List Char → List (List Char)
  | lit c, l =>
    match l with
    | d :: t => if d = c then [t] else []
    | [] => []
  | noneOf excluded, l =>
    match l with
    | d :: t => if excluded d then [] else [t]
    | [] => []
  | seq r s, l => (run r l).flatMap (run s)
  | plus r, l => repeatStep (run r) l.length l

/-- The method `test` for an expression anchored by `^` and `$`: some match consumes the
whole input. -/
def test (re : Regex) (s : String) : Bool :=
  (re.run s.data).any List.isEmpty

end Regex

/-- The class `[^\s@]`. -/
def notSpaceOrAt : Regex := .noneOf (fun c => isWhiteSpace c || c == '@')

/-- The pattern `/^[^\s@]+@[^\s@]+\.[^\s@]+$/`. -/
def emailRegex : Regex :=
  .seq (.plus notSpaceOrAt)
    (.seq (.lit '@') (.seq (.plus notSpaceOrAt) (.seq (.lit '.') (.plus notSpaceOrAt))))

/-- Validate email format: `emailRegex.test(email)`, which throws when the argument
cannot be converted to a string. -/
def isValidEmail (email : JSValue) : Except JSError Bool :=
  match email.toStringJS with
  | .error e => .error e
  | .ok s => .ok (emailRegex.test s)

/-- The shape the specification gives for an accepted address, over the characters
of the string: no white space, exactly one `@`, a non-empty part before it, and a
part after it that contains a `.` with at least one character on each side. -/
def SpecEmailShape (e : List Char) : Prop :=
  (∀ c ∈ e, isWhiteSpace c = false) ∧ e.count '@' = 1 ∧
  ∃ loc dom, e = loc ++ '@' :: dom ∧ loc ≠ [] ∧
    ∃ a b, dom = a ++ '.' :: b ∧ a ≠ [] ∧ b ≠ []

/-! ## Records and response bodies -/

/-- The object literal `submission` of both variants, which is also the row that the
INSERT statement receives. -/
structure Submission where
  id : String
  firstName : JSValue
  lastName : JSValue
  email : JSValue
  phone : JSValue
  interests : JSValue
  subscription : JSValue
  frequency : JSValue
  comments : JSValue
  termsAccepted : Bool
  submittedAt : Nat

/-- The values handed to `JSON.stringify` (handler) or `res.json` (server). -/
inductive Body where
  | rows (rs : List Submission)
  | record (s : Submission)
  | message (text : String)
  | error (error : String)
  | errorRequired (error : String) (required : List String)
  | errorMessage (error : String) (message : String)

namespace Body

/-- The property `error` of a body, when it has one. -/
def errorText : Body → Option String
  | error e => some e
  | errorRequired e _ => some e
  | errorMessage e _ => some e
  | _ => none

/-- The property `message` of a body, when it has one. -/
def messageText : Body → Option String
  | message m => some m
  | errorMessage _ m => some m
  | _ => none

/-- The submission record a body consists of, when it is one. -/
def submission : Body → Option Submission
  | record s => some s
  | _ => none

end Body

/-! ## The database -/

/-- The four SQL statements the program sends. -/
inductive Statement where
  | selectAll
  | selectById (id : JSValue)
  | insert (row : Submission)
  | deleteById (id : JSValue)

/-- What the program asks of the database driver. -/
inductive DbOp where
  | connect
  | query (s : Statement)
  | close

/-- The INSERT statements among the operations, by the row each carries. -/
def insertedRows : List DbOp → List Submission
  | [] => []
  | .query (.insert row) :: rest => row :: insertedRows rest
  | _ :: rest => insertedRows rest

/-- The result of a statement: `rows` of a SELECT, `affectedRows` of a DELETE. -/
structure QueryResult where
  rows : List Submission
  affectedRows : Nat

/-- The table `submissions` and the operations the driver has been asked for so far. -/
structure Database where
  table : List Submission
  log : List DbOp

/-- Appends an operation to the log. -/
def Database.record (db : Database) (op : DbOp) : Database :=
  { db with log := db.log ++ [op] }

/-- The operations asked of the driver between two states of the database. -/
def issued (before after : Database) : List DbOp :=
  after.log.drop before.log.length

/-- The comparison `id = ?` against a bound parameter: a row is selected when the
parameter is the string that is the id of the row. -/
def idMatches (id : JSValue) (row : Submission) : Bool :=
  match id with
  | .str s => s == row.id
  | _ => false

/-- Modelled from the spec: the table `submissions`, whose schema is not among the
sources.  The column `id` is the primary key, so an INSERT of an id that is already
there fails; `SELECT ... ORDER BY submittedAt DESC` lists the rows with the most
recent first; a DELETE reports how many rows it removed. -/
def runStatement : Statement → List Submission → Except String (QueryResult × List Submission)
  | .selectAll, t =>
    .ok (⟨t.insertionSort (fun a b => b.submittedAt ≤ a.submittedAt), 0⟩, t)
  | .selectById id, t => .ok (⟨t.filter (idMatches id), 0⟩, t)
  | .insert row, t =>
    if t.any (fun r => r.id == row.id) then .error "Duplicate entry for key PRIMARY"
    else .ok (⟨[], 1⟩, t ++ [row])
  | .deleteById id, t =>
    .ok (⟨[], (t.filter (idMatches id)).length⟩, t.filter (fun r => !idMatches id r))

/-- The comparison `v === 'literal'`. -/
def strictEq (v : JSValue) (literal : String) : Bool :=
  match v with
  | .str s => s == literal
  | _ => false

/-- The comparison `v === true`. -/
def strictTrue : JSValue → Bool
  | .bool true => true
  | _ => false

/-- The call `v.trim()` on a truthy value: a string is trimmed, and for any other
value `trim` is not a function. -/
def callTrim (v : JSValue) : Except JSError JSValue :=
  match v with
  | .str s => .ok (.str (jsTrim s))
  | _ => .error (.typeError "trim is not a function")

/-- The expression `v || fallback`. -/
def orElse (v fallback : JSValue) : JSValue :=
  if v.truthy then v else fallback

/-- The test that guards the missing-fields response, shared by both variants:
`!firstName || !lastName || !email || !interests || !subscription`. -/
def requiredMissing (data : JSValue) : Bool :=
  !(data.getProp "firstName").truthy || !(data.getProp "lastName").truthy ||
    !(data.getProp "email").truthy || !(data.getProp "interests").truthy ||
    !(data.getProp "subscription").truthy

/-! ## Handler variant (`lambda/index.js`) -/

namespace Lambda

/-- How the driver behaves during one invocation: each field, when set, is the message
of the error with which the corresponding call fails. -/
structure DbFaults where
  connect : Option String
  query : Option String
  close : Option String

/-- What an invocation reads from outside: the driver behaviour, the value `uuidv4()`
returns and the value of `new Date()`. -/
structure Env where
  faults : DbFaults
  uuid : String
  now : Nat

/-- The result of `createResponse`. -/
structure Response where
  statusCode : Nat
  headers : List (String × String)
  body : Body

/-- CORS headers. -/
def corsHeaders : List (String × String) :=
  [("Access-Control-Allow-Origin", "*"),
   ("Access-Control-Allow-Headers",
     "Content-Type,X-Amz-Date,Authorization,X-Api-Key,X-Amz-Security-Token"),
   ("Access-Control-Allow-Methods", "GET,POST,DELETE,OPTIONS")]

/-- Response helper. -/
def createResponse (statusCode : Nat) (body : Body) : Response :=
  { statusCode := statusCode, headers := corsHeaders, body := body }

/-- Database connection helper: a failure of `mysql.createConnection` is rethrown as
`new Error('Database connection failed')`. -/
def getConnection (env : Env) (db : Database) : Except JSError Unit × Database :=
  match env.faults.connect with
  | some _ => (.error (.error "Database connection failed"), db.record .connect)
  | none => (.ok (), db.record .connect)

/-- The call `connection.execute(sql, params)`. -/
def execute (env : Env) (db : Database) (stmt : Statement) :
    Except JSError QueryResult × Database :=
  match env.faults.query with
  | some m => (.error (.error m), db.record (.query stmt))
  | none =>
    match runStatement stmt db.table with
    | .error m => (.error (.error m), db.record (.query stmt))
    | .ok (res, table) => (.ok res, { table := table, log := db.log ++ [.query stmt] })

/-- The block `finally { if (connection) await connection.end(); }` once a connection
is open: an error of `end` replaces the response that was about to be returned. -/
def closing (env : Env) (r : Response) (db : Database) : Except JSError Response × Database :=
  match env.faults.close with
  | some m => (.error (.error m), db.record .close)
  | none => (.ok r, db.record .close)

/-- GET /submissions - Retrieve all submissions. -/
def getSubmissions (env : Env) (db : Database) : Except JSError Response × Database :=
  match getConnection env db with
  | (.error e, db1) =>
    (.ok (createResponse 500 (.errorMessage "Failed to fetch submissions" e.message)), db1)
  | (.ok (), db1) =>
    match execute env db1 .selectAll with
    | (.error e, db2) =>
      closing env (createResponse 500 (.errorMessage "Failed to fetch submissions" e.message)) db2
    | (.ok res, db2) => closing env (createResponse 200 (.rows res.rows)) db2

/-- GET /submissions/{id} - Retrieve specific submission. -/
def getSubmission (env : Env) (db : Database) (id : JSValue) :
    Except JSError Response × Database :=
  match getConnection env db with
  | (.error e, db1) =>
    (.ok (createResponse 500 (.errorMessage "Failed to fetch submission" e.message)), db1)
  | (.ok (), db1) =>
    match execute env db1 (.selectById id) with
    | (.error e, db2) =>
      closing env (createResponse 500 (.errorMessage "Failed to fetch submission" e.message)) db2
    | (.ok res, db2) =>
      match res.rows with
      | [] => closing env (createResponse 404 (.error "Submission not found")) db2
      | row :: _ => closing env (createResponse 200 (.record row)) db2

/-- The `catch` block of `createSubmission`. -/
def createCatch (e : JSError) : Response :=
  if e.isSyntaxError then createResponse 400 (.error "Invalid JSON format")
  else createResponse 500 (.errorMessage "Failed to create submission" e.message)

/-- The expression `data.field ? data.field.trim() : null`. -/
def trimOrNull (v : JSValue) : Except JSError JSValue :=
  if v.truthy then callTrim v else .ok .null

/-- Create submission object: the fields are evaluated in the order of the literal, and
the first `trim` that is not a function throws. -/
def buildSubmission (env : Env) (data : JSValue) : Except JSError Submission := do
  let firstName ← callTrim (data.getProp "firstName")
  let lastName ← callTrim (data.getProp "lastName")
  let email ← callTrim (data.getProp "email")
  let phone ← trimOrNull (data.getProp "phone")
  let comments ← trimOrNull (data.getProp "comments")
  pure {
    id := env.uuid
    firstName := firstName
    lastName := lastName
    email := email
    phone := phone
    interests := data.getProp "interests"
    subscription := data.getProp "subscription"
    frequency := orElse (data.getProp "frequency") (.str "weekly")
    comments := comments
    termsAccepted := strictTrue (data.getProp "termsAccepted")
    submittedAt := env.now }

/-- POST /submissions - Create new submission.  The argument is the outcome of
`JSON.parse(body)`: `none` when it throws a SyntaxError (as it does for an absent
body), `some data` when it returns `data`. -/
def createSubmission (env : Env) (db : Database) (body : Option JSValue) :
    Except JSError Response × Database :=
  match body with
  | none => (.ok (createCatch (.syntaxError "Unexpected token")), db)
  | some data =>
    if data.isNullish then
      (.ok (createCatch (.typeError "Cannot destructure property firstName of data")), db)
    else if requiredMissing data then
      (.ok (createResponse 400 (.errorRequired "Required fields are missing"
        ["firstName", "lastName", "email", "interests", "subscription"])), db)
    else
      match isValidEmail (data.getProp "email") with
      | .error e => (.ok (createCatch e), db)
      | .ok false => (.ok (createResponse 400 (.error "Invalid email format")), db)
      | .ok true =>
        match buildSubmission env data with
        | .error e => (.ok (createCatch e), db)
        | .ok submission =>
          match getConnection env db with
          | (.error e, db1) => (.ok (createCatch e), db1)
          | (.ok (), db1) =>
            match execute env db1 (.insert submission) with
            | (.error e, db2) => closing env (createCatch e) db2
            | (.ok _, db2) => closing env (createResponse 201 (.record submission)) db2

/-- DELETE /submissions/{id} - Delete submission. -/
def deleteSubmission (env : Env) (db : Database) (id : JSValue) :
    Except JSError Response × Database :=
  match getConnection env db with
  | (.error e, db1) =>
    (.ok (createResponse 500 (.errorMessage "Failed to delete submission" e.message)), db1)
  | (.ok (), db1) =>
    match execute env db1 (.deleteById id) with
    | (.error e, db2) =>
      closing env (createResponse 500 (.errorMessage "Failed to delete submission" e.message)) db2
    | (.ok res, db2) =>
      if res.affectedRows = 0 then
        closing env (createResponse 404 (.error "Submission not found")) db2
      else closing env (createResponse 200 (.message "Submission deleted successfully")) db2

/-- The event object: the four properties the handler destructures.  `body` is given
by the outcome of `JSON.parse` on it (see `createSubmission`). -/
structure Event where
  httpMethod : JSValue
  path : JSValue
  pathParameters : JSValue
  body : Option JSValue

/-- The call `path.startsWith(literal)`: only a string has the method. -/
def startsWith (path : JSValue) (literal : String) : Except JSError Bool :=
  match path with
  | .str s => .ok (literal.data.isPrefixOf s.data)
  | _ => .error (.typeError "Cannot read startsWith of path")

/-- The expression `pathParameters?.id`. -/
def pathId (pathParameters : JSValue) : JSValue :=
  if pathParameters.isNullish then .undefined else pathParameters.getProp "id"

/-- The condition `httpMethod === method && path.startsWith('/submissions/') &&
pathParameters?.id`, with the short circuit of `&&`. -/
def idRoute (ev : Event) (method : String) : Except JSError Bool :=
  if strictEq ev.httpMethod method then
    match startsWith ev.path "/submissions/" with
    | .error e => .error e
    | .ok false => .ok false
    | .ok true => .ok (pathId ev.pathParameters).truthy
  else .ok false

/-- The `try` block of the handler: route requests based on HTTP method and path. -/
def route (env : Env) (db : Database) (ev : Event) : Except JSError Response × Database :=
  if strictEq ev.httpMethod "GET" && strictEq ev.path "/submissions" then
    getSubmissions env db
  else
    match idRoute ev "GET" with
    | .error e => (.error e, db)
    | .ok true => getSubmission env db (pathId ev.pathParameters)
    | .ok false =>
      if strictEq ev.httpMethod "POST" && strictEq ev.path "/submissions" then
        createSubmission env db ev.body
      else
        match idRoute ev "DELETE" with
        | .error e => (.error e, db)
        | .ok true => deleteSubmission env db (pathId ev.pathParameters)
        | .ok false => (.ok (createResponse 404 (.error "Route not found")), db)

/-- The `catch` block of the handler, applied to the outcome of its `try` block. -/
def catchAll (out : Except JSError Response × Database) : Except JSError Response × Database :=
  match out with
  | (.ok r, db1) => (.ok r, db1)
  | (.error e, db1) =>
    (.ok (createResponse 500 (.errorMessage "Internal server error" e.message)), db1)

/-- Main Lambda handler.  The argument is `none` for an event that is `null` or
`undefined`, whose destructuring throws before the `try` block is entered. -/
def handler (env : Env) (db : Database) (event : Option Event) :
    Except JSError Response × Database :=
  match event with
  | none => (.error (.typeError "Cannot destructure property httpMethod of event"), db)
  | some ev =>
    if strictEq ev.httpMethod "OPTIONS" then
      (.ok (createResponse 200 (.message "CORS preflight")), db)
    else catchAll (route env db ev)

end Lambda

/-! ## Server variant (`api/server.js`) -/

namespace Server

/-- What a request reads from outside: the error message with which `db.query` fails,
if it does, the value `uuidv4()` returns and the value of `new Date()`. -/
structure Env where
  queryError : Option String
  uuid : String
  now : Nat

/-- What `res.status(..).json(..)` sends; `res.json(..)` alone sends status 200. -/
structure Response where
  status : Nat
  body : Body

/-- The call `db.query(sql, params, callback)` on the one connection of the process:
the callback receives either `err` or the result. -/
def query (env : Env) (db : Database) (stmt : Statement) :
    Except String QueryResult × Database :=
  match env.queryError with
  | some m => (.error m, db.record (.query stmt))
  | none =>
    match runStatement stmt db.table with
    | .error m => (.error m, db.record (.query stmt))
    | .ok (res, table) => (.ok res, { table := table, log := db.log ++ [.query stmt] })

/-- The route `app.get('/api/submissions')`. -/
def getApiSubmissions (env : Env) (db : Database) : Response × Database :=
  match query env db .selectAll with
  | (.error _, db1) => (⟨500, .error "Failed to fetch submissions"⟩, db1)
  | (.ok res, db1) => (⟨200, .rows res.rows⟩, db1)

/-- The object literal `submission` of the POST route. -/
def buildSubmission (env : Env) (body : JSValue) : Submission :=
  { id := env.uuid
    firstName := body.getProp "firstName"
    lastName := body.getProp "lastName"
    email := body.getProp "email"
    phone := orElse (body.getProp "phone") .null
    interests := body.getProp "interests"
    subscription := body.getProp "subscription"
    frequency := orElse (body.getProp "frequency") (.str "weekly")
    comments := orElse (body.getProp "comments") .null
    termsAccepted := strictTrue (body.getProp "termsAccepted")
    submittedAt := env.now }

/-- The route `app.post('/api/submissions')` applied to `req.body`.  The route has no
`try`: the TypeError of destructuring a `req.body` that is `null` or `undefined`, and the
one of testing an email that cannot be converted to a string, leave the callback. -/
def postApiSubmissions (env : Env) (db : Database) (body : JSValue) :
    Except JSError Response × Database :=
  if body.isNullish then
    (.error (.typeError "Cannot destructure property firstName of req.body"), db)
  else if requiredMissing body then
    (.ok ⟨400, .error "Required fields are missing"⟩, db)
  else
    match isValidEmail (body.getProp "email") with
    | .error e => (.error e, db)
    | .ok false => (.ok ⟨400, .error "Invalid email format"⟩, db)
    | .ok true =>
      match query env db (.insert (buildSubmission env body)) with
      | (.error _, db1) => (.ok ⟨500, .error "Failed to create submission"⟩, db1)
      | (.ok _, db1) => (.ok ⟨201, .record (buildSubmission env body)⟩, db1)

/-- The route `app.get('/api/submissions/:id')`. -/
def getApiSubmissionsId (env : Env) (db : Database) (id : String) : Response × Database :=
  match query env db (.selectById (.str id)) with
  | (.error _, db1) => (⟨500, .error "Failed to fetch submission"⟩, db1)
  | (.ok res, db1) =>
    match res.rows with
    | [] => (⟨404, .error "Submission not found"⟩, db1)
    | row :: _ => (⟨200, .record row⟩, db1)

/-- The route `app.delete('/api/submissions/:id')`. -/
def deleteApiSubmissionsId (env : Env) (db : Database) (id : String) : Response × Database :=
  match query env db (.deleteById (.str id)) with
  | (.error _, db1) => (⟨500, .error "Failed to delete submission"⟩, db1)
  | (.ok res, db1) =>
    if res.affectedRows = 0 then (⟨404, .error "Submission not found"⟩, db1)
    else (⟨200, .message "Submission deleted successfully"⟩, db1)

end Server

/-! ## Vocabulary of the statements -/

/-- The payload of the example in the specification. -/
def examplePayload : JSValue :=
  .obj [("firstName", .str "A"), ("lastName", .str "B"), ("email", .str "a@b.com"),
    ("interests", .str "x"), ("subscription", .str "y")]

/-- The defaults the specification describes for the optional fields of a record built
from a payload: `termsAccepted` is true only for the literal `true`, `frequency` is the
one given or `weekly`, `phone` and `comments` are `null` when absent or empty. -/
def DefaultsApplied (data : JSValue) (s : Submission) : Prop :=
  (s.termsAccepted = true ↔ data.getProp "termsAccepted" = .bool true) ∧
  ((data.getProp "frequency").truthy = true → s.frequency = data.getProp "frequency") ∧
  ((data.getProp "frequency").truthy = false → s.frequency = .str "weekly") ∧
  ((data.getProp "phone").truthy = false → s.phone = .null) ∧
  ((data.getProp "comments").truthy = false → s.comments = .null)

/-- A non-empty text. -/
def nonEmptyText : JSValue → Bool
  | .str s => s != ""
  | _ => false

/-- A non-empty text or a non-empty list. -/
def nonEmptyTextOrList : JSValue → Bool
  | .str s => s != ""
  | .arr (_ :: _) => true
  | _ => false

/-- The text neither begins nor ends with white space. -/
def CleanEdges (s : String) : Prop :=
  (∀ c, s.data.head? = some c → isWhiteSpace c = false) ∧
  (∀ c, s.data.getLast? = some c → isWhiteSpace c = false)

/-- The four operations of the API. -/
inductive Operation where
  | list
  | getById
  | create
  | delete

/-- Whether the path is a string that starts with `/submissions/`. -/
def hasIdPath (path : JSValue) : Bool :=
  match path with
  | .str s => "/submissions/".data.isPrefixOf s.data
  | _ => false

/-- The four shapes of the specification: list is GET with path `/submissions`, get-by-id
is GET with a path starting with `/submissions/` and a non-empty `pathParameters.id`,
create is POST with path `/submissions`, delete is DELETE with a path starting with
`/submissions/` and a non-empty `pathParameters.id`. -/
def hasShape (ev : Lambda.Event) : Operation → Bool
  | .list => strictEq ev.httpMethod "GET" && strictEq ev.path "/submissions"
  | .getById => strictEq ev.httpMethod "GET" && hasIdPath ev.path &&
      (Lambda.pathId ev.pathParameters).truthy
  | .create => strictEq ev.httpMethod "POST" && strictEq ev.path "/submissions"
  | .delete => strictEq ev.httpMethod "DELETE" && hasIdPath ev.path &&
      (Lambda.pathId ev.pathParameters).truthy

/-- The operation of the handler variant that carries out each of the four operations. -/
def runOperation (env : Lambda.Env) (db : Database) (ev : Lambda.Event) :
    Operation → Except JSError Lambda.Response × Database
  | .list => Lambda.getSubmissions env db
  | .getById => Lambda.getSubmission env db (Lambda.pathId ev.pathParameters)
  | .create => Lambda.createSubmission env db ev.body
  | .delete => Lambda.deleteSubmission env db (Lambda.pathId ev.pathParameters)

/-- The outcome of an operation of the handler variant is an error or a response with
one of the five status codes and the CORS headers. -/
def WellFormed (out : Except JSError Lambda.Response × Database) : Prop :=
  ∀ r, out.1 = .ok r → r.statusCode ∈ [200, 201, 400, 404, 500] ∧ r.headers = Lambda.corsHeaders

/-! ## The email pattern -/

theorem run_seq (r s : Regex) (l : List Char) :
    Regex.run (.seq r s) l = (Regex.run r l).flatMap (Regex.run s) := rfl

theorem run_plus (r : Regex) (l : List Char) :
    Regex.run (.plus r) l = repeatStep (Regex.run r) l.length l := rfl

theorem run_noneOf_mem (ex : Char → Bool) (l ts : List Char) :
    ts ∈ Regex.run (.noneOf ex) l ↔ ∃ d, l = d :: ts ∧ ex d = false := by
  cases l with
  | nil => simp [Regex.run]
  | cons d t =>
    by_cases h : ex d = true
    · simp [Regex.run, h]
    · simp only [Bool.not_eq_true] at h
      simp only [Regex.run, h, Bool.false_eq_true, if_false, List.mem_singleton]
      constructor
      · rintro rfl; exact ⟨d, rfl, h⟩
      · rintro ⟨e, he, -⟩; exact ((List.cons.inj he).2).symm

theorem run_lit_mem (c : Char) (l ts : List Char) :
    ts ∈ Regex.run (.lit c) l ↔ l = c :: ts := by
  cases l with
  | nil => simp [Regex.run]
  | cons d t =>
    by_cases h : d = c
    · subst h
      simp only [Regex.run, if_true, List.mem_singleton]
      constructor
      · rintro rfl; rfl
      · intro he; exact ((List.cons.inj he).2).symm
    · simp only [Regex.run, h, if_false, List.not_mem_nil, false_iff]
      intro he; exact h (List.cons.inj he).1

theorem repeatStep_noneOf_mem (ex : Char → Bool) (n : Nat) (l ts : List Char) :
    ts ∈ repeatStep (Regex.run (.noneOf ex)) n l ↔
      ∃ pre, pre ≠ [] ∧ pre.length ≤ n ∧ l = pre ++ ts ∧ ∀ c ∈ pre, ex c = false := by
  induction n generalizing l with
  | zero =>
    simp only [repeatStep, List.not_mem_nil, false_iff]
    rintro ⟨pre, hne, hlen, -, -⟩
    exact hne (List.length_eq_zero.mp (Nat.le_zero.mp hlen))
  | succ n ih =>
    simp only [repeatStep, List.mem_flatMap, run_noneOf_mem, List.mem_cons, ih]
    constructor
    · rintro ⟨rest, ⟨d, rfl, hd⟩, h⟩
      rcases h with rfl | ⟨pre, hne, hlen, rfl, hall⟩
      · exact ⟨[d], by simp, by simp, by simp, by simpa using hd⟩
      · refine ⟨d :: pre, by simp, by simpa using hlen, by simp, ?_⟩
        intro c hc
        rcases List.mem_cons.mp hc with rfl | hc
        · exact hd
        · exact hall c hc
    · rintro ⟨pre, hne, hlen, rfl, hall⟩
      cases pre with
      | nil => exact absurd rfl hne
      | cons d pre =>
        refine ⟨pre ++ ts, ⟨d, by simp, hall d (by simp)⟩, ?_⟩
        cases pre with
        | nil => left; simp
        | cons e pre =>
          right
          refine ⟨e :: pre, by simp, by simpa using hlen, rfl, ?_⟩
          intro c hc
          exact hall c (List.mem_cons_of_mem _ hc)

theorem run_plus_noneOf_mem (ex : Char → Bool) (l ts : List Char) :
    ts ∈ Regex.run (.plus (.noneOf ex)) l ↔
      ∃ pre, pre ≠ [] ∧ l = pre ++ ts ∧ ∀ c ∈ pre, ex c = false := by
  rw [run_plus, repeatStep_noneOf_mem]
  constructor
  · rintro ⟨pre, hne, -, hl, hall⟩
    exact ⟨pre, hne, hl, hall⟩
  · rintro ⟨pre, hne, hl, hall⟩
    exact ⟨pre, hne, by simp [hl], hl, hall⟩

/-- What the pattern accepts, as a decomposition of the input. -/
theorem emailRegex_test_iff (s : String) :
    emailRegex.test s = true ↔
      ∃ x y z : List Char, s.data = x ++ '@' :: (y ++ '.' :: z) ∧ x ≠ [] ∧ y ≠ [] ∧ z ≠ [] ∧
        (∀ c ∈ x, (isWhiteSpace c || c == '@') = false) ∧
        (∀ c ∈ y, (isWhiteSpace c || c == '@') = false) ∧
        (∀ c ∈ z, (isWhiteSpace c || c == '@') = false) := by
  unfold Regex.test emailRegex notSpaceOrAt
  simp only [List.any_eq_true, List.isEmpty_iff, run_seq, List.mem_flatMap]
  constructor
  · rintro ⟨ts, ⟨r1, h1, r2, h2, r3, h3, r4, h4, h5⟩, rfl⟩
    have h1 := (run_plus_noneOf_mem _ _ _).mp h1
    have h2 := (run_lit_mem _ _ _).mp h2
    have h3 := (run_plus_noneOf_mem _ _ _).mp h3
    have h4 := (run_lit_mem _ _ _).mp h4
    have h5 := (run_plus_noneOf_mem _ _ _).mp h5
    obtain ⟨x, hx, e1, ax⟩ := h1
    obtain ⟨y, hy, e3, ay⟩ := h3
    obtain ⟨z, hz, e5, az⟩ := h5
    refine ⟨x, y, z, ?_, hx, hy, hz, ax, ay, az⟩
    rw [e1, h2, e3, h4, e5]; simp
  · rintro ⟨x, y, z, hs, hx, hy, hz, ax, ay, az⟩
    refine ⟨[], ?_, rfl⟩
    exact ⟨'@' :: (y ++ '.' :: z), (run_plus_noneOf_mem _ _ _).mpr ⟨x, hx, hs, ax⟩,
      y ++ '.' :: z, (run_lit_mem _ _ _).mpr rfl,
      '.' :: z, (run_plus_noneOf_mem _ _ _).mpr ⟨y, hy, rfl, ay⟩,
      z, (run_lit_mem _ _ _).mpr rfl, (run_plus_noneOf_mem _ _ _).mpr ⟨z, hz, by simp, az⟩⟩

theorem not_ws_at : isWhiteSpace '@' = false := by decide

theorem not_ws_dot : isWhiteSpace '.' = false := by decide

theorem count_at_eq_zero (l : List Char) (h : ∀ c ∈ l, (isWhiteSpace c || c == '@') = false) :
    l.count '@' = 0 := by
  rw [List.count_eq_zero]
  intro hm
  have := h _ hm
  simp at this

/-- The pattern accepts exactly the strings of the shape the specification describes. -/
theorem emailRegex_test_iff_shape (s : String) :
    emailRegex.test s = true ↔ SpecEmailShape s.data := by
  rw [emailRegex_test_iff]
  constructor
  · rintro ⟨x, y, z, hs, hx, hy, hz, ax, ay, az⟩
    have wx : ∀ c ∈ x, isWhiteSpace c = false := fun c hc => (Bool.or_eq_false_iff.mp (ax c hc)).1
    have wy : ∀ c ∈ y, isWhiteSpace c = false := fun c hc => (Bool.or_eq_false_iff.mp (ay c hc)).1
    have wz : ∀ c ∈ z, isWhiteSpace c = false := fun c hc => (Bool.or_eq_false_iff.mp (az c hc)).1
    refine ⟨?_, ?_, x, y ++ '.' :: z, hs, hx, y, z, rfl, hy, hz⟩
    · intro c hc
      rw [hs] at hc
      simp only [List.mem_append, List.mem_cons] at hc
      rcases hc with h | rfl | h | rfl | h
      · exact wx c h
      · exact not_ws_at
      · exact wy c h
      · exact not_ws_dot
      · exact wz c h
    · rw [hs]
      simp [List.count_append, List.count_cons, count_at_eq_zero x ax, count_at_eq_zero y ay,
        count_at_eq_zero z az]
  · rintro ⟨hws, hcount, loc, dom, hs, hloc, a, b, hdom, ha, hb⟩
    subst hdom
    have hc : loc.count '@' = 0 ∧ a.count '@' = 0 ∧ b.count '@' = 0 := by
      rw [hs] at hcount
      simp [List.count_append, List.count_cons] at hcount
      omega
    have key : ∀ l : List Char, l.count '@' = 0 → (∀ c ∈ l, c ∈ s.data) →
        ∀ c ∈ l, (isWhiteSpace c || c == '@') = false := by
      intro l hl hsub c hcl
      rw [Bool.or_eq_false_iff]
      refine ⟨hws c (hsub c hcl), ?_⟩
      rw [List.count_eq_zero] at hl
      simp only [beq_eq_false_iff_ne, ne_eq]
      rintro rfl
      exact hl hcl
    refine ⟨loc, a, b, hs, hloc, ha, hb, key loc hc.1 ?_, key a hc.2.1 ?_, key b hc.2.2 ?_⟩
    · intro c h; rw [hs]; simp [h]
    · intro c h; rw [hs]; simp [h]
    · intro c h; rw [hs]; simp [h]

/-- An address the pattern accepts has its only `@` followed by a `.`. -/
theorem valid_email_split (s : String) (h : emailRegex.test s = true) :
    '@' ∈ s.data ∧ ∀ loc dom, s.data = loc ++ '@' :: dom → '.' ∈ dom := by
  obtain ⟨-, hcount, loc0, dom0, hs, -, a, b, hdom, -, -⟩ := (emailRegex_test_iff_shape s).mp h
  refine ⟨by rw [hs]; simp, ?_⟩
  intro loc dom hsplit
  have h0 : loc0.count '@' = 0 ∧ dom0.count '@' = 0 := by
    rw [hs] at hcount
    simp [List.count_append, List.count_cons] at hcount
    omega
  have n1 : '@' ∉ loc0 := List.count_eq_zero.mp h0.1
  have n2 : '@' ∉ dom0 := List.count_eq_zero.mp h0.2
  have e := hs.symm.trans hsplit
  have := (List.append_cons_inj_of_not_mem n1 n2).mp e
  rw [← this.2.2, hdom]
  simp

/-! ## Validation -/

theorem requiredMissing_of_isNullish (data : JSValue) (h : data.isNullish = true) :
    requiredMissing data = true := by
  cases data <;> simp [JSValue.isNullish] at h <;> simp [requiredMissing, JSValue.getProp, JSValue.truthy]

theorem isNullish_of_not_requiredMissing (data : JSValue) (h : requiredMissing data = false) :
    data.isNullish = false := by
  cases hn : data.isNullish
  · rfl
  · rw [requiredMissing_of_isNullish data hn] at h; cases h

/-- A payload that is not `null` and lacks a required field is answered with status 400
by both variants, and the database is not touched. -/
theorem missing_fields_rejected (data : JSValue) (hn : data.isNullish = false)
    (hm : requiredMissing data = true) :
    (∀ env db, Lambda.createSubmission env db (some data) =
      (.ok (Lambda.createResponse 400 (.errorRequired "Required fields are missing"
        ["firstName", "lastName", "email", "interests", "subscription"])), db)) ∧
    (∀ env db, Server.postApiSubmissions env db data =
      (.ok ⟨400, .error "Required fields are missing"⟩, db)) := by
  constructor
  · intro env db; simp [Lambda.createSubmission, hn, hm]
  · intro env db; simp [Server.postApiSubmissions, hn, hm]

/-- A payload with all required fields whose email fails the pattern is answered with
status 400 by both variants, and the database is not touched. -/
theorem invalid_email_rejected (data : JSValue) (hm : requiredMissing data = false)
    (hv : isValidEmail (data.getProp "email") = .ok false) :
    (∀ env db, Lambda.createSubmission env db (some data) =
      (.ok (Lambda.createResponse 400 (.error "Invalid email format")), db)) ∧
    (∀ env db, Server.postApiSubmissions env db data =
      (.ok ⟨400, .error "Invalid email format"⟩, db)) := by
  have hn := isNullish_of_not_requiredMissing data hm
  constructor
  · intro env db; simp [Lambda.createSubmission, hn, hm, hv]
  · intro env db; simp [Server.postApiSubmissions, hn, hm, hv]

theorem isValidEmail_of_toStringJS (v : JSValue) (e : String) (h : v.toStringJS = .ok e) :
    isValidEmail v = .ok (emailRegex.test e) := by
  simp [isValidEmail, h]

/-- C2, counterexample: a payload with all five required fields present whose email is
the object `{"toString": 1}`, which holds no `@`, is not answered with status 400: the
test of the pattern throws, the handler answers 500 `Failed to create submission` and
the server route throws. -/
theorem C2_unprintable_email_counterexample :
    requiredMissing (.obj [("firstName", .str "A"), ("lastName", .str "B"),
      ("email", .obj [("toString", .num 1)]), ("interests", .str "x"),
      ("subscription", .str "y")]) = false ∧
    Lambda.createSubmission ⟨⟨none, none, none⟩, "id-1", 0⟩ ⟨[], []⟩
        (some (.obj [("firstName", .str "A"), ("lastName", .str "B"),
          ("email", .obj [("toString", .num 1)]), ("interests", .str "x"),
          ("subscription", .str "y")])) =
      (.ok (Lambda.createResponse 500 (.errorMessage "Failed to create submission"
        "Cannot convert object to primitive value")), ⟨[], []⟩) ∧
    Server.postApiSubmissions ⟨none, "id-1", 0⟩ ⟨[], []⟩
        (.obj [("firstName", .str "A"), ("lastName", .str "B"),
          ("email", .obj [("toString", .num 1)]), ("interests", .str "x"),
          ("subscription", .str "y")]) =
      (.error (.typeError "Cannot convert object to primitive value"), ⟨[], []⟩) :=
  ⟨by decide, rfl, rfl⟩

/-- C2, amended: for every string `e`, `isValidEmail(e)` holds exactly when `e` has no
white space, exactly one `@`, a non-empty part before it and, after it, a `.` with at
least one character on each side.  Consequently a payload whose five required fields
are present (non-empty) and whose email is a string, or another value that the test
converts to a string, and as that string `e` has no `@`, or has an `@` with no `.`
after it, is answered by both variants with status 400 and error `Invalid email
format`, and the database is left as it was (no statement is sent, no row is
stored). -/
theorem C2_email_pattern :
    (∀ e : String, isValidEmail (.str e) = .ok true ↔ SpecEmailShape e.data) ∧
    (∀ (data : JSValue) (e : String), requiredMissing data = false →
      (data.getProp "email").toStringJS = .ok e →
      ('@' ∉ e.data ∨ ∃ loc dom, e.data = loc ++ '@' :: dom ∧ '.' ∉ dom) →
      (∀ env db, Lambda.createSubmission env db (some data) =
        (.ok (Lambda.createResponse 400 (.error "Invalid email format")), db)) ∧
      (∀ env db, Server.postApiSubmissions env db data =
        (.ok ⟨400, .error "Invalid email format"⟩, db))) := by
  constructor
  · intro e
    rw [isValidEmail_of_toStringJS (.str e) e rfl, ← emailRegex_test_iff_shape e]
    simp
  · intro data e hm he hbad
    apply invalid_email_rejected data hm
    rw [isValidEmail_of_toStringJS _ e he]
    cases hv : emailRegex.test e
    · rfl
    · exfalso
      have hsplit := valid_email_split e hv
      rcases hbad with h | ⟨loc, dom, hs, hdot⟩
      · exact h hsplit.1
      · exact hdot (hsplit.2 loc dom hs)

/-- C2 at the payload with email `a@bc`, whose `@` has no `.` after it. -/
theorem C2_email_pattern_witness :
    Lambda.createSubmission ⟨⟨none, none, none⟩, "id-1", 0⟩ ⟨[], []⟩
        (some (.obj [("firstName", .str "A"), ("lastName", .str "B"), ("email", .str "a@bc"),
          ("interests", .str "x"), ("subscription", .str "y")])) =
      (.ok (Lambda.createResponse 400 (.error "Invalid email format")), ⟨[], []⟩) :=
  (C2_email_pattern.2 (.obj [("firstName", .str "A"), ("lastName", .str "B"),
      ("email", .str "a@bc"), ("interests", .str "x"), ("subscription", .str "y")]) "a@bc"
    (by decide) rfl (Or.inr ⟨['a'], ['b', 'c'], rfl, by decide⟩)).1
    ⟨⟨none, none, none⟩, "id-1", 0⟩ ⟨[], []⟩

/-! ## Creation -/

theorem issued_self (db : Database) : issued db db = [] := by
  simp [issued]

/-- The handler's create operation once validation and the construction of the record
have succeeded: what remains is the conversation with the database. -/
theorem lambda_create_built (env : Lambda.Env) (db : Database) (data : JSValue)
    (s : Submission) (hm : requiredMissing data = false)
    (hv : isValidEmail (data.getProp "email") = .ok true)
    (hb : Lambda.buildSubmission env data = .ok s) :
    Lambda.createSubmission env db (some data) =
      match Lambda.getConnection env db with
      | (.error e, db1) => (.ok (Lambda.createCatch e), db1)
      | (.ok (), db1) =>
        match Lambda.execute env db1 (.insert s) with
        | (.error e, db2) => Lambda.closing env (Lambda.createCatch e) db2
        | (.ok _, db2) => Lambda.closing env (Lambda.createResponse 201 (.record s)) db2 := by
  have hn := isNullish_of_not_requiredMissing data hm
  simp [Lambda.createSubmission, hn, hm, hv, hb]

/-- The handler's create operation when the construction of the record throws. -/
theorem lambda_create_throws (env : Lambda.Env) (db : Database) (data : JSValue)
    (e : JSError) (hm : requiredMissing data = false)
    (hv : isValidEmail (data.getProp "email") = .ok true)
    (hb : Lambda.buildSubmission env data = .error e) :
    Lambda.createSubmission env db (some data) = (.ok (Lambda.createCatch e), db) := by
  have hn := isNullish_of_not_requiredMissing data hm
  simp [Lambda.createSubmission, hn, hm, hv, hb]

theorem lambda_getConnection_log (env : Lambda.Env) (db : Database) :
    (Lambda.getConnection env db).2 = ⟨db.table, db.log ++ [.connect]⟩ := by
  unfold Lambda.getConnection
  cases env.faults.connect <;> rfl

theorem lambda_execute_log (env : Lambda.Env) (db : Database) (stmt : Statement) :
    (Lambda.execute env db stmt).2.log = db.log ++ [.query stmt] := by
  unfold Lambda.execute
  cases env.faults.query with
  | some m => rfl
  | none =>
    cases hr : runStatement stmt db.table with
    | error m => simp [Database.record]
    | ok p => simp

theorem lambda_closing_log (env : Lambda.Env) (r : Lambda.Response) (db : Database) :
    (Lambda.closing env r db).2 = ⟨db.table, db.log ++ [.close]⟩ := by
  unfold Lambda.closing
  cases env.faults.close <;> rfl

/-- The operations the handler's create operation asks for once the record is built:
a connection attempt alone, or a connection, the INSERT of that record and the close. -/
theorem lambda_create_built_log (env : Lambda.Env) (db : Database) (data : JSValue)
    (s : Submission) (hm : requiredMissing data = false)
    (hv : isValidEmail (data.getProp "email") = .ok true)
    (hb : Lambda.buildSubmission env data = .ok s) :
    issued db (Lambda.createSubmission env db (some data)).2 = [.connect] ∨
    issued db (Lambda.createSubmission env db (some data)).2 =
      [.connect, .query (.insert s), .close] := by
  rw [lambda_create_built env db data s hm hv hb]
  have hc := lambda_getConnection_log env db
  rcases hg : Lambda.getConnection env db with ⟨_ | _, db1⟩
  · left
    rw [hg] at hc
    simp only at hc
    subst hc
    simp [issued]
  · right
    rw [hg] at hc
    simp only at hc
    subst hc
    have he := lambda_execute_log env ⟨db.table, db.log ++ [.connect]⟩ (.insert s)
    rcases hx : Lambda.execute env ⟨db.table, db.log ++ [.connect]⟩ (.insert s) with ⟨_ | _, db2⟩ <;>
      · rw [hx] at he
        simp only at he
        simp [hx, lambda_closing_log, he, issued]

/-- A row the handler's create operation sends to the INSERT is the record built from a
payload that passed both checks. -/
theorem lambda_inserted_row (env : Lambda.Env) (db : Database) (body : Option JSValue)
    (s : Submission)
    (h : s ∈ insertedRows (issued db (Lambda.createSubmission env db body).2)) :
    ∃ data, body = some data ∧ requiredMissing data = false ∧
      isValidEmail (data.getProp "email") = .ok true ∧ Lambda.buildSubmission env data = .ok s := by
  cases body with
  | none => simp [Lambda.createSubmission, issued_self, insertedRows] at h
  | some data =>
    refine ⟨data, rfl, ?_⟩
    cases hn : data.isNullish
    case true => simp [Lambda.createSubmission, hn, issued_self, insertedRows] at h
    cases hm : requiredMissing data
    case true => simp [Lambda.createSubmission, hn, hm, issued_self, insertedRows] at h
    rcases hv : isValidEmail (data.getProp "email") with e | b
    · simp [Lambda.createSubmission, hn, hm, hv, issued_self, insertedRows] at h
    cases b
    case false => simp [Lambda.createSubmission, hn, hm, hv, issued_self, insertedRows] at h
    cases hb : Lambda.buildSubmission env data with
    | error e =>
      rw [lambda_create_throws env db data e hm hv hb] at h
      simp [issued_self, insertedRows] at h
    | ok s0 =>
      refine ⟨rfl, rfl, ?_⟩
      rcases lambda_create_built_log env db data s0 hm hv hb with hl | hl
      · rw [hl] at h; simp [insertedRows] at h
      · rw [hl] at h
        simp only [insertedRows, List.mem_singleton] at h
        rw [h]

/-- A record the handler's create operation returns is the record built from a payload
that passed both checks, and it has been sent to the INSERT. -/
theorem lambda_returned_record (env : Lambda.Env) (db : Database) (body : Option JSValue)
    (r : Lambda.Response) (s : Submission)
    (h : (Lambda.createSubmission env db body).1 = .ok r) (hr : r.body = .record s) :
    ∃ data, body = some data ∧ requiredMissing data = false ∧
      isValidEmail (data.getProp "email") = .ok true ∧ Lambda.buildSubmission env data = .ok s ∧
      r.statusCode = 201 ∧
      issued db (Lambda.createSubmission env db body).2 =
        [.connect, .query (.insert s), .close] := by
  have notRecord : ∀ e : JSError, (Lambda.createCatch e).body ≠ .record s := by
    intro e
    unfold Lambda.createCatch
    cases e.isSyntaxError <;> simp [Lambda.createResponse]
  cases body with
  | none =>
    simp only [Lambda.createSubmission, Except.ok.injEq] at h
    subst h
    exact absurd hr (notRecord _)
  | some data =>
    refine ⟨data, rfl, ?_⟩
    cases hn : data.isNullish
    case true =>
      simp only [Lambda.createSubmission, hn, if_true, Except.ok.injEq] at h
      subst h
      exact absurd hr (notRecord _)
    cases hm : requiredMissing data
    case true =>
      simp [Lambda.createSubmission, hn, hm] at h
      subst h
      simp [Lambda.createResponse] at hr
    rcases hv : isValidEmail (data.getProp "email") with e | b
    · simp only [Lambda.createSubmission, hn, hm, hv, Bool.false_eq_true, if_false,
        Except.ok.injEq] at h
      subst h
      exact absurd hr (notRecord _)
    cases b
    case false =>
      simp [Lambda.createSubmission, hn, hm, hv] at h
      subst h
      simp [Lambda.createResponse] at hr
    cases hb : Lambda.buildSubmission env data with
    | error e =>
      rw [lambda_create_throws env db data e hm hv hb] at h
      simp only [Except.ok.injEq] at h
      subst h
      exact absurd hr (notRecord _)
    | ok s0 =>
      have hfull := lambda_create_built env db data s0 hm hv hb
      rw [hfull] at h
      have hc := lambda_getConnection_log env db
      rcases hg : Lambda.getConnection env db with ⟨_ | _, db1⟩
      · rw [hg] at h
        simp only [Except.ok.injEq] at h
        subst h
        exact absurd hr (notRecord _)
      · rw [hg] at h hc hfull
        simp only at h hc hfull
        rcases hx : Lambda.execute env db1 (.insert s0) with ⟨_ | _, db2⟩
        · rw [hx] at h
          simp only [Lambda.closing] at h
          cases hcl : env.faults.close
          · rw [hcl] at h
            simp only [Except.ok.injEq] at h
            subst h
            exact absurd hr (notRecord _)
          · rw [hcl] at h
            simp at h
        · rw [hx] at h hfull
          simp only at hfull
          simp only [Lambda.closing] at h
          cases hcl : env.faults.close
          · rw [hcl] at h
            simp only [Except.ok.injEq] at h
            subst h
            simp only [Lambda.createResponse, Body.record.injEq] at hr
            subst hr
            refine ⟨rfl, rfl, rfl, rfl, ?_⟩
            have h2 := lambda_execute_log env db1 (.insert s0)
            rw [hx] at h2
            simp only at h2
            subst hc
            rw [hfull]
            simp [lambda_closing_log, issued, h2]
          · rw [hcl] at h
            simp at h

theorem callTrim_ok (v r : JSValue) (h : callTrim v = .ok r) :
    ∃ t, v = .str t ∧ r = .str (jsTrim t) := by
  cases v <;> simp [callTrim] at h
  exact ⟨_, rfl, h.symm⟩

theorem trimOrNull_ok (v r : JSValue) (h : Lambda.trimOrNull v = .ok r) :
    (v.truthy = false ∧ r = .null) ∨ (v.truthy = true ∧ ∃ t, v = .str t ∧ r = .str (jsTrim t)) := by
  unfold Lambda.trimOrNull at h
  cases ht : v.truthy
  · left
    simp [ht] at h
    exact ⟨rfl, h.symm⟩
  · right
    simp only [ht, if_true] at h
    exact ⟨rfl, callTrim_ok v r h⟩

/-- What a successfully built record of the handler consists of. -/
theorem lambda_buildSubmission_ok (env : Lambda.Env) (data : JSValue) (s : Submission)
    (h : Lambda.buildSubmission env data = .ok s) :
    ∃ fn ln em ph co, callTrim (data.getProp "firstName") = .ok fn ∧
      callTrim (data.getProp "lastName") = .ok ln ∧
      callTrim (data.getProp "email") = .ok em ∧
      Lambda.trimOrNull (data.getProp "phone") = .ok ph ∧
      Lambda.trimOrNull (data.getProp "comments") = .ok co ∧
      s = { id := env.uuid, firstName := fn, lastName := ln, email := em, phone := ph,
            interests := data.getProp "interests", subscription := data.getProp "subscription",
            frequency := orElse (data.getProp "frequency") (.str "weekly"), comments := co,
            termsAccepted := strictTrue (data.getProp "termsAccepted"),
            submittedAt := env.now } := by
  unfold Lambda.buildSubmission at h
  cases h1 : callTrim (data.getProp "firstName") with
  | error e => simp [h1, bind, Except.bind] at h
  | ok fn =>
    cases h2 : callTrim (data.getProp "lastName") with
    | error e => simp [h1, h2, bind, Except.bind] at h
    | ok ln =>
      cases h3 : callTrim (data.getProp "email") with
      | error e => simp [h1, h2, h3, bind, Except.bind] at h
      | ok em =>
        cases h4 : Lambda.trimOrNull (data.getProp "phone") with
        | error e => simp [h1, h2, h3, h4, bind, Except.bind] at h
        | ok ph =>
          cases h5 : Lambda.trimOrNull (data.getProp "comments") with
          | error e => simp [h1, h2, h3, h4, h5, bind, Except.bind] at h
          | ok co =>
            simp only [h1, h2, h3, h4, h5, bind, Except.bind, pure, Except.pure,
              Except.ok.injEq] at h
            exact ⟨fn, ln, em, ph, co, rfl, rfl, rfl, rfl, rfl, h.symm⟩

/-- The record the handler builds when the three names are strings and `phone` and
`comments` are strings wherever they are non-empty. -/
theorem lambda_buildSubmission_strings (env : Lambda.Env) (data : JSValue)
    (hf : (data.getProp "firstName").isString = true)
    (hl : (data.getProp "lastName").isString = true)
    (he : (data.getProp "email").isString = true)
    (hp : (data.getProp "phone").truthy = true → (data.getProp "phone").isString = true)
    (hc : (data.getProp "comments").truthy = true → (data.getProp "comments").isString = true) :
    ∃ s, Lambda.buildSubmission env data = .ok s ∧ s.id = env.uuid ∧ s.submittedAt = env.now := by
  have str : ∀ v : JSValue, v.isString = true → ∃ r, callTrim v = .ok r := by
    intro v hv
    cases v <;> simp [JSValue.isString] at hv
    exact ⟨_, rfl⟩
  have opt : ∀ v : JSValue, (v.truthy = true → v.isString = true) →
      ∃ r, Lambda.trimOrNull v = .ok r := by
    intro v hv
    unfold Lambda.trimOrNull
    cases ht : v.truthy
    · exact ⟨_, rfl⟩
    · simpa using str v (hv ht)
  obtain ⟨fn, h1⟩ := str _ hf
  obtain ⟨ln, h2⟩ := str _ hl
  obtain ⟨em, h3⟩ := str _ he
  obtain ⟨ph, h4⟩ := opt _ hp
  obtain ⟨co, h5⟩ := opt _ hc
  have hb : Lambda.buildSubmission env data = .ok
      { id := env.uuid, firstName := fn, lastName := ln, email := em, phone := ph,
        interests := data.getProp "interests", subscription := data.getProp "subscription",
        frequency := orElse (data.getProp "frequency") (.str "weekly"), comments := co,
        termsAccepted := strictTrue (data.getProp "termsAccepted"),
        submittedAt := env.now } := by
    unfold Lambda.buildSubmission
    simp only [h1, h2, h3, h4, h5, bind, Except.bind, pure, Except.pure]
  exact ⟨_, hb, rfl, rfl⟩

theorem server_query_log (env : Server.Env) (db : Database) (stmt : Statement) :
    (Server.query env db stmt).2.log = db.log ++ [.query stmt] := by
  unfold Server.query
  cases env.queryError with
  | some m => rfl
  | none =>
    cases hr : runStatement stmt db.table with
    | error m => simp [Database.record]
    | ok p => simp

/-- The server's POST route once both checks have passed. -/
theorem server_post_valid (env : Server.Env) (db : Database) (body : JSValue)
    (hm : requiredMissing body = false) (hv : isValidEmail (body.getProp "email") = .ok true) :
    Server.postApiSubmissions env db body =
      match Server.query env db (.insert (Server.buildSubmission env body)) with
      | (.error _, db1) => (.ok ⟨500, .error "Failed to create submission"⟩, db1)
      | (.ok _, db1) => (.ok ⟨201, .record (Server.buildSubmission env body)⟩, db1) := by
  have hn := isNullish_of_not_requiredMissing body hm
  simp [Server.postApiSubmissions, hn, hm, hv]

/-- Once both checks have passed the server sends exactly one statement, the INSERT of
the record it built. -/
theorem server_post_valid_log (env : Server.Env) (db : Database) (body : JSValue)
    (hm : requiredMissing body = false) (hv : isValidEmail (body.getProp "email") = .ok true) :
    issued db (Server.postApiSubmissions env db body).2 =
      [.query (.insert (Server.buildSubmission env body))] := by
  rw [server_post_valid env db body hm hv]
  have hq := server_query_log env db (.insert (Server.buildSubmission env body))
  rcases hx : Server.query env db (.insert (Server.buildSubmission env body)) with ⟨_ | _, db1⟩ <;>
    · rw [hx] at hq
      simp only at hq
      simp [issued, hq]

/-- A row the server sends to the INSERT is the record built from a payload that passed
both checks. -/
theorem server_inserted_row (env : Server.Env) (db : Database) (body : JSValue) (s : Submission)
    (h : s ∈ insertedRows (issued db (Server.postApiSubmissions env db body).2)) :
    requiredMissing body = false ∧ isValidEmail (body.getProp "email") = .ok true ∧
      s = Server.buildSubmission env body := by
  cases hn : body.isNullish
  case true => simp [Server.postApiSubmissions, hn, issued_self, insertedRows] at h
  cases hm : requiredMissing body
  case true => simp [Server.postApiSubmissions, hn, hm, issued_self, insertedRows] at h
  rcases hv : isValidEmail (body.getProp "email") with e | b
  · simp [Server.postApiSubmissions, hn, hm, hv, issued_self, insertedRows] at h
  cases b
  case false => simp [Server.postApiSubmissions, hn, hm, hv, issued_self, insertedRows] at h
  rw [server_post_valid_log env db body hm hv] at h
  simp only [insertedRows, List.mem_singleton] at h
  exact ⟨rfl, rfl, h⟩

/-- A record the server returns from the POST route is the record built from a payload
that passed both checks; the status is 201. -/
theorem server_returned_record (env : Server.Env) (db : Database) (body : JSValue)
    (r : Server.Response) (s : Submission)
    (h : (Server.postApiSubmissions env db body).1 = .ok r) (hr : r.body = .record s) :
    requiredMissing body = false ∧ isValidEmail (body.getProp "email") = .ok true ∧
      s = Server.buildSubmission env body ∧ r.status = 201 := by
  cases hn : body.isNullish
  case true => simp [Server.postApiSubmissions, hn] at h
  cases hm : requiredMissing body
  case true =>
    simp [Server.postApiSubmissions, hn, hm] at h
    subst h
    simp at hr
  rcases hv : isValidEmail (body.getProp "email") with e | b
  · simp [Server.postApiSubmissions, hn, hm, hv] at h
  cases b
  case false =>
    simp [Server.postApiSubmissions, hn, hm, hv] at h
    subst h
    simp at hr
  rw [server_post_valid env db body hm hv] at h
  rcases hx : Server.query env db (.insert (Server.buildSubmission env body)) with ⟨_ | _, db1⟩
  · rw [hx] at h
    simp only [Except.ok.injEq] at h
    subst h
    simp at hr
  · rw [hx] at h
    simp only [Except.ok.injEq] at h
    subst h
    simp only [Body.record.injEq] at hr
    exact ⟨rfl, rfl, hr.symm, rfl⟩

/-- The driver stores a row whose id is not in the table when nothing fails. -/
theorem runStatement_insert_fresh (t : List Submission) (s : Submission)
    (hfresh : ∀ r ∈ t, r.id ≠ s.id) :
    runStatement (.insert s) t = .ok (⟨[], 1⟩, t ++ [s]) := by
  unfold runStatement
  have : t.any (fun r => r.id == s.id) = false := by
    rw [List.any_eq_false]
    intro r hr
    simpa using hfresh r hr
  simp [this]

/-- C1: evaluation of both variants at payloads that lack required fields.  For the
payload `null`, in which every required field is missing, the handler answers a POST to
`/submissions` with status 500 and error `Failed to create submission`, not with status
400 and `Required fields are missing`; it does not touch the database.  The server
route, given `null` as `req.body`, throws instead of answering.  For a payload whose
`interests` is the empty list both variants accept the payload and send the INSERT. -/
theorem C1_null_payload_not_rejected :
    (∀ env db, Lambda.handler env db
        (some ⟨.str "POST", .str "/submissions", .null, some .null⟩) =
      (.ok (Lambda.createResponse 500 (.errorMessage "Failed to create submission"
        "Cannot destructure property firstName of data")), db)) ∧
    (∀ env db, (Server.postApiSubmissions env db .null).1 =
      .error (.typeError "Cannot destructure property firstName of req.body")) ∧
    Lambda.createSubmission ⟨⟨none, none, none⟩, "id-1", 0⟩ ⟨[], []⟩
        (some (.obj [("firstName", .str "A"), ("lastName", .str "B"),
          ("email", .str "a@b.com"), ("interests", .arr []), ("subscription", .str "y")])) =
      (.ok (Lambda.createResponse 201 (.record ⟨"id-1", .str "A", .str "B", .str "a@b.com",
          .null, .arr [], .str "y", .str "weekly", .null, false, 0⟩)),
        ⟨[⟨"id-1", .str "A", .str "B", .str "a@b.com", .null, .arr [], .str "y",
            .str "weekly", .null, false, 0⟩],
          [.connect, .query (.insert ⟨"id-1", .str "A", .str "B", .str "a@b.com",
            .null, .arr [], .str "y", .str "weekly", .null, false, 0⟩), .close]⟩) ∧
    Server.postApiSubmissions ⟨none, "id-1", 0⟩ ⟨[], []⟩
        (.obj [("firstName", .str "A"), ("lastName", .str "B"),
          ("email", .str "a@b.com"), ("interests", .arr []), ("subscription", .str "y")]) =
      (.ok ⟨201, .record ⟨"id-1", .str "A", .str "B", .str "a@b.com",
          .null, .arr [], .str "y", .str "weekly", .null, false, 0⟩⟩,
        ⟨[⟨"id-1", .str "A", .str "B", .str "a@b.com", .null, .arr [], .str "y",
            .str "weekly", .null, false, 0⟩],
          [.query (.insert ⟨"id-1", .str "A", .str "B", .str "a@b.com",
            .null, .arr [], .str "y", .str "weekly", .null, false, 0⟩)]⟩) :=
  ⟨fun _ _ => rfl, fun _ _ => rfl, rfl, rfl⟩

/-- C3, counterexample: with `firstName` the number 5, all five required fields present
and non-empty, a matching email and a database that works, the handler answers with
status 500 and sends no statement. -/
theorem C3_number_name_counterexample :
    requiredMissing (.obj [("firstName", .num 5), ("lastName", .str "B"),
      ("email", .str "a@b.com"), ("interests", .str "x"), ("subscription", .str "y")]) = false ∧
    isValidEmail (.str "a@b.com") = .ok true ∧
    Lambda.createSubmission ⟨⟨none, none, none⟩, "id-1", 0⟩ ⟨[], []⟩
        (some (.obj [("firstName", .num 5), ("lastName", .str "B"),
          ("email", .str "a@b.com"), ("interests", .str "x"), ("subscription", .str "y")])) =
      (.ok (Lambda.createResponse 500
        (.errorMessage "Failed to create submission" "trim is not a function")), ⟨[], []⟩) :=
  ⟨by decide, rfl, rfl⟩

/-- C3, amended: when the five required fields are present and non-empty, the email
matches the pattern and the database works (connection, INSERT of a fresh id, close),
the server variant answers 201 whatever the JSON types of the fields, and the handler
variant answers 201 provided `firstName`, `lastName` and `email` are strings and `phone`
and `comments` are strings where they are non-empty.  The record returned carries the
generated id and the timestamp, and exactly that record is added to the table. -/
theorem C3_created :
    (∀ (env : Lambda.Env) (db : Database) (data : JSValue),
      requiredMissing data = false → isValidEmail (data.getProp "email") = .ok true →
      (data.getProp "firstName").isString = true →
      (data.getProp "lastName").isString = true →
      (data.getProp "email").isString = true →
      ((data.getProp "phone").truthy = true → (data.getProp "phone").isString = true) →
      ((data.getProp "comments").truthy = true → (data.getProp "comments").isString = true) →
      env.faults.connect = none → env.faults.query = none → env.faults.close = none →
      (∀ r ∈ db.table, r.id ≠ env.uuid) →
      ∃ s, Lambda.createSubmission env db (some data) =
          (.ok (Lambda.createResponse 201 (.record s)),
            ⟨db.table ++ [s], db.log ++ [.connect, .query (.insert s), .close]⟩) ∧
        s.id = env.uuid ∧ s.submittedAt = env.now) ∧
    (∀ (env : Server.Env) (db : Database) (body : JSValue),
      requiredMissing body = false → isValidEmail (body.getProp "email") = .ok true →
      env.queryError = none → (∀ r ∈ db.table, r.id ≠ env.uuid) →
      ∃ s, Server.postApiSubmissions env db body =
          (.ok ⟨201, .record s⟩, ⟨db.table ++ [s], db.log ++ [.query (.insert s)]⟩) ∧
        s.id = env.uuid ∧ s.submittedAt = env.now) := by
  constructor
  · intro env db data hm hv hf hl he hp hc h1 h2 h3 hfresh
    obtain ⟨s, hb, hid, hat⟩ := lambda_buildSubmission_strings env data hf hl he hp hc
    refine ⟨s, ?_, hid, hat⟩
    rw [lambda_create_built env db data s hm hv hb]
    have hr := runStatement_insert_fresh db.table s (by rw [hid]; exact hfresh)
    simp [Lambda.getConnection, Lambda.execute, Lambda.closing, Database.record, h1, h2, h3, hr]
  · intro env db body hm hv hq hfresh
    refine ⟨Server.buildSubmission env body, ?_, rfl, rfl⟩
    rw [server_post_valid env db body hm hv]
    have hr := runStatement_insert_fresh db.table (Server.buildSubmission env body) hfresh
    simp [Server.query, hq, hr]

/-- C3 at the payload of the specification's example, handler variant. -/
theorem C3_created_witness :
    ∃ s, Lambda.createSubmission ⟨⟨none, none, none⟩, "id-1", 7⟩ ⟨[], []⟩ (some examplePayload) =
        (.ok (Lambda.createResponse 201 (.record s)),
          ⟨[] ++ [s], [] ++ [.connect, .query (.insert s), .close]⟩) ∧
      s.id = "id-1" ∧ s.submittedAt = 7 :=
  C3_created.1 ⟨⟨none, none, none⟩, "id-1", 7⟩ ⟨[], []⟩ examplePayload (by decide) rfl
    (by decide) (by decide) (by decide) (by decide) (by decide) rfl rfl rfl
    (by intro r hr; cases hr)

theorem strictTrue_iff (v : JSValue) : strictTrue v = true ↔ v = .bool true := by
  cases v with
  | bool b => cases b <;> simp [strictTrue]
  | _ => simp [strictTrue]

theorem lambda_defaultsApplied (env : Lambda.Env) (data : JSValue) (s : Submission)
    (h : Lambda.buildSubmission env data = .ok s) : DefaultsApplied data s := by
  obtain ⟨fn, ln, em, ph, co, -, -, -, h4, h5, rfl⟩ := lambda_buildSubmission_ok env data s h
  refine ⟨strictTrue_iff _, ?_, ?_, ?_, ?_⟩
  · intro ht; simp [orElse, ht]
  · intro ht; simp [orElse, ht]
  · intro ht
    rcases trimOrNull_ok _ _ h4 with ⟨-, hr⟩ | ⟨ht2, -⟩
    · exact hr
    · rw [ht] at ht2; cases ht2
  · intro ht
    rcases trimOrNull_ok _ _ h5 with ⟨-, hr⟩ | ⟨ht2, -⟩
    · exact hr
    · rw [ht] at ht2; cases ht2

theorem server_defaultsApplied (env : Server.Env) (body : JSValue) :
    DefaultsApplied body (Server.buildSubmission env body) := by
  refine ⟨strictTrue_iff _, ?_, ?_, ?_, ?_⟩ <;>
    · intro ht; simp [Server.buildSubmission, orElse, ht]

/-- C4: in both variants, a record that is sent to the INSERT or returned for a payload
has `termsAccepted` true exactly when the payload's `termsAccepted` is the literal
`true`, `frequency` equal to the payload's when that is given and non-empty and
`weekly` otherwise, and `phone` and `comments` equal to `null` when those are absent or
empty (absent or empty meaning falsy: `undefined`, `null`, `false`, `0` or the empty
string).  For the example payload, with a working database, both variants answer 201 with
`frequency` `weekly`, `termsAccepted` false, `phone` and `comments` `null`. -/
theorem C4_defaults :
    (∀ (env : Lambda.Env) (db : Database) (data : JSValue) (s : Submission),
      (s ∈ insertedRows (issued db (Lambda.createSubmission env db (some data)).2) ∨
        ∃ r, (Lambda.createSubmission env db (some data)).1 = .ok r ∧ r.body = .record s) →
      DefaultsApplied data s) ∧
    (∀ (env : Server.Env) (db : Database) (body : JSValue) (s : Submission),
      (s ∈ insertedRows (issued db (Server.postApiSubmissions env db body).2) ∨
        ∃ r, (Server.postApiSubmissions env db body).1 = .ok r ∧ r.body = .record s) →
      DefaultsApplied body s) ∧
    Lambda.createSubmission ⟨⟨none, none, none⟩, "id-1", 7⟩ ⟨[], []⟩ (some examplePayload) =
      (.ok (Lambda.createResponse 201 (.record ⟨"id-1", .str "A", .str "B", .str "a@b.com",
          .null, .str "x", .str "y", .str "weekly", .null, false, 7⟩)),
        ⟨[⟨"id-1", .str "A", .str "B", .str "a@b.com", .null, .str "x", .str "y",
            .str "weekly", .null, false, 7⟩],
          [.connect, .query (.insert ⟨"id-1", .str "A", .str "B", .str "a@b.com", .null,
            .str "x", .str "y", .str "weekly", .null, false, 7⟩), .close]⟩) ∧
    Server.postApiSubmissions ⟨none, "id-1", 7⟩ ⟨[], []⟩ examplePayload =
      (.ok ⟨201, .record ⟨"id-1", .str "A", .str "B", .str "a@b.com",
          .null, .str "x", .str "y", .str "weekly", .null, false, 7⟩⟩,
        ⟨[⟨"id-1", .str "A", .str "B", .str "a@b.com", .null, .str "x", .str "y",
            .str "weekly", .null, false, 7⟩],
          [.query (.insert ⟨"id-1", .str "A", .str "B", .str "a@b.com", .null,
            .str "x", .str "y", .str "weekly", .null, false, 7⟩)]⟩) := by
  refine ⟨?_, ?_, rfl, rfl⟩
  · intro env db data s h
    rcases h with h | ⟨r, h, hr⟩
    · obtain ⟨data', hd, -, -, hb⟩ := lambda_inserted_row env db (some data) s h
      cases hd
      exact lambda_defaultsApplied env data s hb
    · obtain ⟨data', hd, -, -, hb, -⟩ := lambda_returned_record env db (some data) r s h hr
      cases hd
      exact lambda_defaultsApplied env data s hb
  · intro env db body s h
    rcases h with h | ⟨r, h, hr⟩
    · obtain ⟨-, -, hs⟩ := server_inserted_row env db body s h
      rw [hs]; exact server_defaultsApplied env body
    · obtain ⟨-, -, hs, -⟩ := server_returned_record env db body r s h hr
      rw [hs]; exact server_defaultsApplied env body

/-- C4 at the example payload and the record the handler returns for it. -/
theorem C4_defaults_witness :
    DefaultsApplied examplePayload ⟨"id-1", .str "A", .str "B", .str "a@b.com",
      .null, .str "x", .str "y", .str "weekly", .null, false, 7⟩ :=
  C4_defaults.1 ⟨⟨none, none, none⟩, "id-1", 7⟩ ⟨[], []⟩ examplePayload _
    (Or.inr ⟨_, rfl, rfl⟩)

/-! ## Trimming -/

theorem dropWhile_eq_self_of_all_false {α : Type} (p : α → Bool) (l : List α)
    (h : ∀ c ∈ l, p c = false) : l.dropWhile p = l := by
  cases l with
  | nil => rfl
  | cons c t => simp [List.dropWhile_cons, h c (by simp)]

theorem trimChars_eq_self (l : List Char) (h : ∀ c ∈ l, isWhiteSpace c = false) :
    trimChars l = l := by
  unfold trimChars List.rdropWhile
  rw [dropWhile_eq_self_of_all_false _ l h,
    dropWhile_eq_self_of_all_false _ l.reverse (fun c hc => h c (List.mem_reverse.mp hc)),
    List.reverse_reverse]

theorem jsTrim_eq_self (s : String) (h : ∀ c ∈ s.data, isWhiteSpace c = false) :
    jsTrim s = s := by
  unfold jsTrim
  rw [trimChars_eq_self s.data h]

theorem trimChars_last (l : List Char) (c : Char) (h : (trimChars l).getLast? = some c) :
    isWhiteSpace c = false := by
  have hne : trimChars l ≠ [] := by
    intro h0; rw [h0] at h; simp at h
  have hlast := List.rdropWhile_last_not isWhiteSpace (l.dropWhile isWhiteSpace) hne
  rw [List.getLast?_eq_getLast _ hne] at h
  have hc : (trimChars l).getLast hne = c := Option.some.inj h
  rw [← hc]
  simpa using hlast

theorem trimChars_head (l : List Char) (c : Char) (h : (trimChars l).head? = some c) :
    isWhiteSpace c = false := by
  have hne : trimChars l ≠ [] := by
    intro h0; rw [h0] at h; simp at h
  have hpre : trimChars l <+: l.dropWhile isWhiteSpace := List.rdropWhile_prefix _ _
  have hhead := hpre.head hne
  rw [List.head?_eq_head hne] at h
  have hc : (trimChars l).head hne = c := Option.some.inj h
  rw [← hc, hhead]
  exact List.head_dropWhile_not isWhiteSpace l _

/-- A trimmed text neither begins nor ends with white space. -/
theorem cleanEdges_jsTrim (s : String) : CleanEdges (jsTrim s) :=
  ⟨fun c h => trimChars_head s.data c h, fun c h => trimChars_last s.data c h⟩

theorem truthy_of_not_requiredMissing (data : JSValue) (h : requiredMissing data = false) :
    (data.getProp "firstName").truthy = true ∧ (data.getProp "lastName").truthy = true ∧
    (data.getProp "email").truthy = true ∧ (data.getProp "interests").truthy = true ∧
    (data.getProp "subscription").truthy = true := by
  simpa [requiredMissing, and_assoc] using h

theorem str_truthy (s : String) (h : (JSValue.str s).truthy = true) : s ≠ "" := by
  simpa [JSValue.truthy] using h

/-- The handler checks `firstName` before it trims it: a name of white space only
passes the check and is sent to the INSERT as the empty text. -/
theorem blank_name_stored_empty :
    insertedRows (issued ⟨[], []⟩ (Lambda.createSubmission ⟨⟨none, none, none⟩, "id-1", 0⟩
        ⟨[], []⟩ (some (.obj [("firstName", .str "   "), ("lastName", .str "B"),
          ("email", .str "a@b.com"), ("interests", .str "x"), ("subscription", .str "y")]))).2) =
      [⟨"id-1", .str "", .str "B", .str "a@b.com", .null, .str "x", .str "y", .str "weekly",
        .null, false, 0⟩] :=
  rfl

/-- C5, counterexample: the handler and the server both send to the INSERT a record
whose `subscription` is the number 7, which is not a text, and whose `interests` is the
empty list, which is neither a non-empty text nor a non-empty list. -/
theorem C5_number_subscription_counterexample :
    insertedRows (issued ⟨[], []⟩ (Lambda.createSubmission ⟨⟨none, none, none⟩, "id-1", 0⟩
        ⟨[], []⟩ (some (.obj [("firstName", .str "A"), ("lastName", .str "B"),
          ("email", .str "a@b.com"), ("interests", .arr []), ("subscription", .num 7)]))).2) =
      [⟨"id-1", .str "A", .str "B", .str "a@b.com", .null, .arr [], .num 7, .str "weekly",
        .null, false, 0⟩] ∧
    insertedRows (issued ⟨[], []⟩ (Server.postApiSubmissions ⟨none, "id-1", 0⟩
        ⟨[], []⟩ (.obj [("firstName", .str "A"), ("lastName", .str "B"),
          ("email", .str "a@b.com"), ("interests", .arr []), ("subscription", .num 7)])).2) =
      [⟨"id-1", .str "A", .str "B", .str "a@b.com", .null, .arr [], .num 7, .str "weekly",
        .null, false, 0⟩] ∧
    nonEmptyText (.num 7) = false ∧ nonEmptyTextOrList (.arr []) = false :=
  ⟨rfl, rfl, rfl, rfl⟩

/-- C5, amended: every record sent to the INSERT has `interests` and `subscription`
equal to the payload's values, which are truthy (none of `undefined`, `null`, `false`,
`0`, the empty string) whatever their JSON type, and an `email` that matches the
pattern.  In the handler variant `firstName` and `lastName` are texts, the trimmed
forms of non-empty strings of the payload, and `email` is a non-empty text equal to the
payload's.  In the server variant `firstName`, `lastName` and `email` are the payload's
truthy values as given. -/
theorem C5_persisted_fields :
    (∀ (env : Lambda.Env) (db : Database) (body : Option JSValue) (row : Submission),
      row ∈ insertedRows (issued db (Lambda.createSubmission env db body).2) →
      ∃ data fn ln em, body = some data ∧
        data.getProp "firstName" = .str fn ∧ fn ≠ "" ∧ row.firstName = .str (jsTrim fn) ∧
        data.getProp "lastName" = .str ln ∧ ln ≠ "" ∧ row.lastName = .str (jsTrim ln) ∧
        data.getProp "email" = .str em ∧ row.email = .str em ∧
        nonEmptyText row.email = true ∧ isValidEmail row.email = .ok true ∧
        row.interests = data.getProp "interests" ∧ row.interests.truthy = true ∧
        row.subscription = data.getProp "subscription" ∧ row.subscription.truthy = true) ∧
    (∀ (env : Server.Env) (db : Database) (body : JSValue) (row : Submission),
      row ∈ insertedRows (issued db (Server.postApiSubmissions env db body).2) →
      row.firstName = body.getProp "firstName" ∧ row.firstName.truthy = true ∧
      row.lastName = body.getProp "lastName" ∧ row.lastName.truthy = true ∧
      row.email = body.getProp "email" ∧ row.email.truthy = true ∧
      isValidEmail row.email = .ok true ∧
      row.interests = body.getProp "interests" ∧ row.interests.truthy = true ∧
      row.subscription = body.getProp "subscription" ∧ row.subscription.truthy = true) := by
  constructor
  · intro env db body row h
    obtain ⟨data, hd, hm, hv, hb⟩ := lambda_inserted_row env db body row h
    obtain ⟨t1, t2, t3, t4, t5⟩ := truthy_of_not_requiredMissing data hm
    obtain ⟨fn', ln', em', ph, co, h1, h2, h3, -, -, rfl⟩ := lambda_buildSubmission_ok env data row hb
    obtain ⟨fn, hfn, rfl⟩ := callTrim_ok _ _ h1
    obtain ⟨ln, hln, rfl⟩ := callTrim_ok _ _ h2
    obtain ⟨em, hem, rfl⟩ := callTrim_ok _ _ h3
    rw [hfn] at t1
    rw [hln] at t2
    rw [hem] at t3 hv
    have hshape := (emailRegex_test_iff_shape em).mp
      (by simpa [isValidEmail, JSValue.toStringJS] using hv)
    have htrim : jsTrim em = em := jsTrim_eq_self em hshape.1
    refine ⟨data, fn, ln, em, hd, hfn, str_truthy fn t1, rfl, hln, str_truthy ln t2, rfl, hem,
      ?_, ?_, ?_, rfl, t4, rfl, t5⟩
    · simp [htrim]
    · simpa [htrim, nonEmptyText, JSValue.truthy] using t3
    · simpa [htrim] using hv
  · intro env db body row h
    obtain ⟨hm, hv, rfl⟩ := server_inserted_row env db body row h
    obtain ⟨t1, t2, t3, t4, t5⟩ := truthy_of_not_requiredMissing body hm
    exact ⟨rfl, t1, rfl, t2, rfl, t3, hv, rfl, t4, rfl, t5⟩

/-- C5 at the number-subscription payload, server variant. -/
theorem C5_persisted_fields_witness :
    (⟨"id-1", .str "A", .str "B", .str "a@b.com", .null, .str "x", .num 7, .str "weekly",
        .null, false, 0⟩ : Submission).subscription.truthy = true :=
  (C5_persisted_fields.2 ⟨none, "id-1", 0⟩ ⟨[], []⟩
    (.obj [("firstName", .str "A"), ("lastName", .str "B"),
      ("email", .str "a@b.com"), ("interests", .str "x"), ("subscription", .num 7)])
    ⟨"id-1", .str "A", .str "B", .str "a@b.com", .null, .str "x", .num 7, .str "weekly",
      .null, false, 0⟩ (List.mem_singleton.mpr rfl)).2.2.2.2.2.2.2.2.2.2

/-- C10: for every payload the handler accepts and persists (the record is sent to the
INSERT, or returned with status 201), that record has `firstName`, `lastName` and
`email` equal to the payload's strings trimmed, and `phone` and `comments`, when the
payload has them (non-empty), equal to the payload's strings trimmed; none of these
begins or ends with white space.  For the same payload the server sends to the INSERT,
and returns when its query succeeds, a record with these fields exactly as given. -/
theorem C10_trimmed (env : Lambda.Env) (db : Database) (data : JSValue) (s : Submission)
    (h : s ∈ insertedRows (issued db (Lambda.createSubmission env db (some data)).2) ∨
      ∃ r, (Lambda.createSubmission env db (some data)).1 = .ok r ∧ r.body = .record s) :
    (∃ fn ln em, data.getProp "firstName" = .str fn ∧ s.firstName = .str (jsTrim fn) ∧
      data.getProp "lastName" = .str ln ∧ s.lastName = .str (jsTrim ln) ∧
      data.getProp "email" = .str em ∧ s.email = .str (jsTrim em) ∧
      CleanEdges (jsTrim fn) ∧ CleanEdges (jsTrim ln) ∧ CleanEdges (jsTrim em)) ∧
    ((data.getProp "phone").truthy = true → ∃ p, data.getProp "phone" = .str p ∧
      s.phone = .str (jsTrim p) ∧ CleanEdges (jsTrim p)) ∧
    ((data.getProp "comments").truthy = true → ∃ c, data.getProp "comments" = .str c ∧
      s.comments = .str (jsTrim c) ∧ CleanEdges (jsTrim c)) ∧
    (∀ (senv : Server.Env) (sdb : Database),
      insertedRows (issued sdb (Server.postApiSubmissions senv sdb data).2) =
        [Server.buildSubmission senv data] ∧
      (senv.queryError = none → (∀ r ∈ sdb.table, r.id ≠ senv.uuid) →
        (Server.postApiSubmissions senv sdb data).1 =
          .ok ⟨201, .record (Server.buildSubmission senv data)⟩) ∧
      (Server.buildSubmission senv data).firstName = data.getProp "firstName" ∧
      (Server.buildSubmission senv data).lastName = data.getProp "lastName" ∧
      (Server.buildSubmission senv data).email = data.getProp "email" ∧
      ((data.getProp "phone").truthy = true →
        (Server.buildSubmission senv data).phone = data.getProp "phone") ∧
      ((data.getProp "comments").truthy = true →
        (Server.buildSubmission senv data).comments = data.getProp "comments")) := by
  have hfacts : requiredMissing data = false ∧ isValidEmail (data.getProp "email") = .ok true ∧
      Lambda.buildSubmission env data = .ok s := by
    rcases h with h | ⟨r, h, hr⟩
    · obtain ⟨data', hd, hm, hv, hb⟩ := lambda_inserted_row env db (some data) s h
      cases hd
      exact ⟨hm, hv, hb⟩
    · obtain ⟨data', hd, hm, hv, hb, -⟩ := lambda_returned_record env db (some data) r s h hr
      cases hd
      exact ⟨hm, hv, hb⟩
  obtain ⟨hm, hv, hb⟩ := hfacts
  obtain ⟨fn', ln', em', ph, co, h1, h2, h3, h4, h5, rfl⟩ := lambda_buildSubmission_ok env data s hb
  obtain ⟨fn, hfn, rfl⟩ := callTrim_ok _ _ h1
  obtain ⟨ln, hln, rfl⟩ := callTrim_ok _ _ h2
  obtain ⟨em, hem, rfl⟩ := callTrim_ok _ _ h3
  refine ⟨⟨fn, ln, em, hfn, rfl, hln, rfl, hem, rfl, cleanEdges_jsTrim fn,
    cleanEdges_jsTrim ln, cleanEdges_jsTrim em⟩, ?_, ?_, ?_⟩
  · intro ht
    rcases trimOrNull_ok _ _ h4 with ⟨hf, -⟩ | ⟨-, p, hp, hr⟩
    · rw [ht] at hf; cases hf
    · exact ⟨p, hp, hr, cleanEdges_jsTrim p⟩
  · intro ht
    rcases trimOrNull_ok _ _ h5 with ⟨hf, -⟩ | ⟨-, p, hp, hr⟩
    · rw [ht] at hf; cases hf
    · exact ⟨p, hp, hr, cleanEdges_jsTrim p⟩
  · intro senv sdb
    refine ⟨?_, ?_, rfl, rfl, rfl, ?_, ?_⟩
    · rw [server_post_valid_log senv sdb data hm hv]; rfl
    · intro hq hfresh
      rw [server_post_valid senv sdb data hm hv]
      have hr := runStatement_insert_fresh sdb.table (Server.buildSubmission senv data) hfresh
      simp [Server.query, hq, hr]
    · intro ht; simp [Server.buildSubmission, orElse, ht]
    · intro ht; simp [Server.buildSubmission, orElse, ht]

/-- C10 at a payload whose name and phone carry white space at both ends. -/
theorem C10_trimmed_witness :
    ∃ p, JSValue.getProp (.obj [("firstName", .str "  Ann "), ("lastName", .str "B"),
          ("email", .str "a@b.com"), ("phone", .str " 12 "), ("interests", .str "x"),
          ("subscription", .str "y")]) "phone" = .str p ∧
      (⟨"id-1", .str "Ann", .str "B", .str "a@b.com", .str "12", .str "x", .str "y",
        .str "weekly", .null, false, 0⟩ : Submission).phone = .str (jsTrim p) ∧
      CleanEdges (jsTrim p) :=
  (C10_trimmed ⟨⟨none, none, none⟩, "id-1", 0⟩ ⟨[], []⟩
    (.obj [("firstName", .str "  Ann "), ("lastName", .str "B"),
      ("email", .str "a@b.com"), ("phone", .str " 12 "), ("interests", .str "x"),
      ("subscription", .str "y")])
    ⟨"id-1", .str "Ann", .str "B", .str "a@b.com", .str "12", .str "x", .str "y",
      .str "weekly", .null, false, 0⟩ (Or.inr ⟨_, rfl, rfl⟩)).2.1 rfl

/-! ## Dispatch -/

theorem strictEq_iff (v : JSValue) (literal : String) :
    strictEq v literal = true ↔ v = .str literal := by
  cases v <;> simp [strictEq]

theorem idRoute_of_not_method (ev : Lambda.Event) (method : String)
    (h : strictEq ev.httpMethod method = false) : Lambda.idRoute ev method = .ok false := by
  simp [Lambda.idRoute, h]

theorem idRoute_of_method (ev : Lambda.Event) (method p : String)
    (h : strictEq ev.httpMethod method = true) (hp : ev.path = .str p) :
    Lambda.idRoute ev method =
      .ok (hasIdPath ev.path && (Lambda.pathId ev.pathParameters).truthy) := by
  simp only [Lambda.idRoute, h, if_true, hp, Lambda.startsWith, hasIdPath]
  cases "/submissions/".data.isPrefixOf p.data <;> rfl

theorem idRoute_of_method_not_string (ev : Lambda.Event) (method : String)
    (h : strictEq ev.httpMethod method = true) (hp : ev.path.isString = false) :
    Lambda.idRoute ev method = .error (.typeError "Cannot read startsWith of path") := by
  simp only [Lambda.idRoute, h, if_true]
  cases hpath : ev.path <;> simp [hpath, JSValue.isString] at hp <;> rfl

theorem hasIdPath_ne_list (path : JSValue) (h : hasIdPath path = true) :
    strictEq path "/submissions" = false := by
  cases hs : strictEq path "/submissions"
  · rfl
  · rw [(strictEq_iff _ _).mp hs] at h
    exact absurd h (by decide)

/-- C6, counterexample: a GET event without `path` matches none of the four shapes and is
answered with status 500 and error `Internal server error`, not with 404. -/
theorem C6_absent_path_counterexample :
    hasShape ⟨.str "GET", .undefined, .undefined, none⟩ .list = false ∧
    hasShape ⟨.str "GET", .undefined, .undefined, none⟩ .getById = false ∧
    hasShape ⟨.str "GET", .undefined, .undefined, none⟩ .create = false ∧
    hasShape ⟨.str "GET", .undefined, .undefined, none⟩ .delete = false ∧
    Lambda.handler ⟨⟨none, none, none⟩, "id-1", 0⟩ ⟨[], []⟩
        (some ⟨.str "GET", .undefined, .undefined, none⟩) =
      (.ok (Lambda.createResponse 500
        (.errorMessage "Internal server error" "Cannot read startsWith of path")), ⟨[], []⟩) :=
  ⟨rfl, rfl, rfl, rfl, rfl⟩

/-- C6, amended: an OPTIONS event is answered with status 200 and body `CORS preflight`
without any database operation, whatever the path.  Any other event has at most one of
the four shapes; an event with one of them is handled by that operation and no other.
An event with none of them is answered with status 404 and error `Route not found`,
without any database operation, provided its path is a string or its method is neither
GET nor DELETE; when the path is not a string (absent, for one) and the method is GET or
DELETE the answer is status 500 with error `Internal server error`. -/
theorem C6_dispatch (env : Lambda.Env) (db : Database) (ev : Lambda.Event) :
    (strictEq ev.httpMethod "OPTIONS" = true →
      Lambda.handler env db (some ev) =
        (.ok (Lambda.createResponse 200 (.message "CORS preflight")), db)) ∧
    (∀ a b, hasShape ev a = true → hasShape ev b = true → a = b) ∧
    (∀ op, hasShape ev op = true →
      Lambda.handler env db (some ev) = Lambda.catchAll (runOperation env db ev op)) ∧
    (strictEq ev.httpMethod "OPTIONS" = false → (∀ op, hasShape ev op = false) →
      (ev.path.isString = true ∨
        (strictEq ev.httpMethod "GET" = false ∧ strictEq ev.httpMethod "DELETE" = false)) →
      Lambda.handler env db (some ev) =
        (.ok (Lambda.createResponse 404 (.error "Route not found")), db)) ∧
    (ev.path.isString = false →
      (strictEq ev.httpMethod "GET" = true ∨ strictEq ev.httpMethod "DELETE" = true) →
      Lambda.handler env db (some ev) =
        (.ok (Lambda.createResponse 500
          (.errorMessage "Internal server error" "Cannot read startsWith of path")), db)) := by
  refine ⟨?_, ?_, ?_, ?_, ?_⟩
  · intro h
    simp [Lambda.handler, h]
  · intro a b ha hb
    have key : ∀ op, hasShape ev op = true →
        (ev.httpMethod = .str (match op with
          | .create => "POST"
          | .delete => "DELETE"
          | _ => "GET")) ∧
        (match op with
          | .getById => hasIdPath ev.path = true
          | .delete => hasIdPath ev.path = true
          | _ => ev.path = .str "/submissions") := by
      intro op h
      cases op <;> simp only [hasShape, Bool.and_eq_true, strictEq_iff] at h
      · exact ⟨h.1, h.2⟩
      · exact ⟨h.1.1, h.1.2⟩
      · exact ⟨h.1, h.2⟩
      · exact ⟨h.1.1, h.1.2⟩
    have ka := key a ha
    have kb := key b hb
    cases a <;> cases b <;> first
      | rfl
      | (exfalso
         have m1 := ka.1
         have m2 := kb.1
         rw [m1] at m2
         simp at m2
         done)
      | (exfalso
         have p1 := ka.2
         have p2 := kb.2
         simp only at p1 p2
         first
           | (rw [p1] at p2; exact absurd p2 (by decide))
           | (rw [p2] at p1; exact absurd p1 (by decide)))
  · intro op h
    cases op with
    | list =>
      simp only [hasShape, Bool.and_eq_true] at h
      have hm := (strictEq_iff _ _).mp h.1
      have ho : strictEq ev.httpMethod "OPTIONS" = false := by rw [hm]; decide
      simp [Lambda.handler, ho, Lambda.route, h.1, h.2, runOperation]
    | getById =>
      simp only [hasShape, Bool.and_eq_true] at h
      have hm := (strictEq_iff _ _).mp h.1.1
      have ho : strictEq ev.httpMethod "OPTIONS" = false := by rw [hm]; decide
      have hl := hasIdPath_ne_list ev.path h.1.2
      obtain ⟨p, hp⟩ : ∃ p, ev.path = .str p := by
        cases hpath : ev.path <;> simp [hpath, hasIdPath] at h
        exact ⟨_, rfl⟩
      have hr := idRoute_of_method ev "GET" p h.1.1 hp
      rw [h.1.2, h.2] at hr
      simp [Lambda.handler, ho, Lambda.route, hl, hr, runOperation]
    | create =>
      simp only [hasShape, Bool.and_eq_true] at h
      have hm := (strictEq_iff _ _).mp h.1
      have ho : strictEq ev.httpMethod "OPTIONS" = false := by rw [hm]; decide
      have hg : strictEq ev.httpMethod "GET" = false := by rw [hm]; decide
      have hr := idRoute_of_not_method ev "GET" hg
      simp [Lambda.handler, ho, Lambda.route, hg, hr, h.1, h.2, runOperation]
    | delete =>
      simp only [hasShape, Bool.and_eq_true] at h
      have hm := (strictEq_iff _ _).mp h.1.1
      have ho : strictEq ev.httpMethod "OPTIONS" = false := by rw [hm]; decide
      have hg : strictEq ev.httpMethod "GET" = false := by rw [hm]; decide
      have hpo : strictEq ev.httpMethod "POST" = false := by rw [hm]; decide
      have hr := idRoute_of_not_method ev "GET" hg
      obtain ⟨p, hp⟩ : ∃ p, ev.path = .str p := by
        cases hpath : ev.path <;> simp [hpath, hasIdPath] at h
        exact ⟨_, rfl⟩
      have hd := idRoute_of_method ev "DELETE" p h.1.1 hp
      rw [h.1.2, h.2] at hd
      simp [Lambda.handler, ho, Lambda.route, hg, hpo, hr, hd, runOperation]
  · intro ho hnone hor
    have h1 := hnone .list
    have h2 := hnone .getById
    have h3 := hnone .create
    have h4 := hnone .delete
    simp only [hasShape] at h1 h2 h3 h4
    have hget : Lambda.idRoute ev "GET" = .ok false := by
      cases hg : strictEq ev.httpMethod "GET"
      · exact idRoute_of_not_method ev "GET" hg
      · rcases hor with hs | ⟨hng, -⟩
        · obtain ⟨p, hp⟩ : ∃ p, ev.path = .str p := by
            cases hpath : ev.path <;> simp [hpath, JSValue.isString] at hs
            exact ⟨_, rfl⟩
          rw [idRoute_of_method ev "GET" p hg hp]
          rw [hg] at h2
          simpa using h2
        · rw [hg] at hng; cases hng
    have hdel : Lambda.idRoute ev "DELETE" = .ok false := by
      cases hg : strictEq ev.httpMethod "DELETE"
      · exact idRoute_of_not_method ev "DELETE" hg
      · rcases hor with hs | ⟨-, hnd⟩
        · obtain ⟨p, hp⟩ : ∃ p, ev.path = .str p := by
            cases hpath : ev.path <;> simp [hpath, JSValue.isString] at hs
            exact ⟨_, rfl⟩
          rw [idRoute_of_method ev "DELETE" p hg hp]
          rw [hg] at h4
          simpa using h4
        · rw [hg] at hnd; cases hnd
    simp [Lambda.handler, ho, Lambda.route, h1, h3, hget, hdel, Lambda.catchAll]
  · intro hs hor
    have hl : strictEq ev.path "/submissions" = false := by
      cases hpath : ev.path <;> simp [hpath, JSValue.isString, strictEq] at hs ⊢
    rcases hor with hg | hd
    · have hm := (strictEq_iff _ _).mp hg
      have ho : strictEq ev.httpMethod "OPTIONS" = false := by rw [hm]; decide
      have hr := idRoute_of_method_not_string ev "GET" hg hs
      simp [Lambda.handler, ho, Lambda.route, hl, hr, Lambda.catchAll, JSError.message]
    · have hm := (strictEq_iff _ _).mp hd
      have ho : strictEq ev.httpMethod "OPTIONS" = false := by rw [hm]; decide
      have hg : strictEq ev.httpMethod "GET" = false := by rw [hm]; decide
      have hpo : strictEq ev.httpMethod "POST" = false := by rw [hm]; decide
      have hr := idRoute_of_not_method ev "GET" hg
      have hr2 := idRoute_of_method_not_string ev "DELETE" hd hs
      simp [Lambda.handler, ho, Lambda.route, hl, hg, hpo, hr, hr2, Lambda.catchAll,
        JSError.message]

/-- C6 at a PUT event for `/submissions`, which has none of the four shapes. -/
theorem C6_dispatch_witness :
    Lambda.handler ⟨⟨none, none, none⟩, "id-1", 0⟩ ⟨[], []⟩
        (some ⟨.str "PUT", .str "/submissions", .null, none⟩) =
      (.ok (Lambda.createResponse 404 (.error "Route not found")), ⟨[], []⟩) :=
  (C6_dispatch ⟨⟨none, none, none⟩, "id-1", 0⟩ ⟨[], []⟩
    ⟨.str "PUT", .str "/submissions", .null, none⟩).2.2.2.1 rfl
    (by intro op; cases op <;> rfl) (Or.inl rfl)

/-! ## Responses of the handler -/

theorem wellFormed_ok (code : Nat) (body : Body) (db : Database)
    (h : code ∈ [200, 201, 400, 404, 500]) :
    WellFormed (.ok (Lambda.createResponse code body), db) := by
  intro r hr
  simp only [Except.ok.injEq] at hr
  subst hr
  exact ⟨h, rfl⟩

theorem wellFormed_error (e : JSError) (db : Database) : WellFormed (.error e, db) := by
  intro r hr
  cases hr

theorem wellFormed_closing (env : Lambda.Env) (code : Nat) (body : Body) (db : Database)
    (h : code ∈ [200, 201, 400, 404, 500]) :
    WellFormed (Lambda.closing env (Lambda.createResponse code body) db) := by
  unfold Lambda.closing
  cases env.faults.close
  · exact wellFormed_ok code body _ h
  · exact wellFormed_error _ _

theorem wellFormed_getSubmissions (env : Lambda.Env) (db : Database) :
    WellFormed (Lambda.getSubmissions env db) := by
  unfold Lambda.getSubmissions
  rcases Lambda.getConnection env db with ⟨_ | _, db1⟩
  · exact wellFormed_ok _ _ _ (by decide)
  · simp only
    rcases Lambda.execute env db1 .selectAll with ⟨_ | _, db2⟩ <;>
      exact wellFormed_closing _ _ _ _ (by decide)

theorem wellFormed_getSubmission (env : Lambda.Env) (db : Database) (id : JSValue) :
    WellFormed (Lambda.getSubmission env db id) := by
  unfold Lambda.getSubmission
  rcases Lambda.getConnection env db with ⟨_ | _, db1⟩
  · exact wellFormed_ok _ _ _ (by decide)
  · simp only
    rcases Lambda.execute env db1 (.selectById id) with ⟨_ | res, db2⟩
    · exact wellFormed_closing _ _ _ _ (by decide)
    · simp only
      cases res.rows <;> exact wellFormed_closing _ _ _ _ (by decide)

theorem wellFormed_deleteSubmission (env : Lambda.Env) (db : Database) (id : JSValue) :
    WellFormed (Lambda.deleteSubmission env db id) := by
  unfold Lambda.deleteSubmission
  rcases Lambda.getConnection env db with ⟨_ | _, db1⟩
  · exact wellFormed_ok _ _ _ (by decide)
  · simp only
    rcases Lambda.execute env db1 (.deleteById id) with ⟨_ | res, db2⟩
    · exact wellFormed_closing _ _ _ _ (by decide)
    · simp only
      split <;> exact wellFormed_closing _ _ _ _ (by decide)

theorem createCatch_eq (e : JSError) :
    ∃ code body, code ∈ [200, 201, 400, 404, 500] ∧
      Lambda.createCatch e = Lambda.createResponse code body := by
  unfold Lambda.createCatch
  cases e.isSyntaxError
  · exact ⟨500, _, by decide, rfl⟩
  · exact ⟨400, _, by decide, rfl⟩

theorem wellFormed_createSubmission (env : Lambda.Env) (db : Database) (body : Option JSValue) :
    WellFormed (Lambda.createSubmission env db body) := by
  have hcatch : ∀ e db1, WellFormed (.ok (Lambda.createCatch e), db1) := by
    intro e db1
    obtain ⟨code, b, hc, he⟩ := createCatch_eq e
    rw [he]
    exact wellFormed_ok _ _ _ hc
  have hclose : ∀ e db1, WellFormed (Lambda.closing env (Lambda.createCatch e) db1) := by
    intro e db1
    obtain ⟨code, b, hc, he⟩ := createCatch_eq e
    rw [he]
    exact wellFormed_closing _ _ _ _ hc
  unfold Lambda.createSubmission
  cases body with
  | none => exact hcatch _ _
  | some data =>
    simp only
    split
    · exact hcatch _ _
    · split
      · exact wellFormed_ok _ _ _ (by decide)
      · split
        · exact hcatch _ _
        · exact wellFormed_ok _ _ _ (by decide)
        · cases Lambda.buildSubmission env data with
          | error e => exact hcatch _ _
          | ok s =>
            simp only
            rcases Lambda.getConnection env db with ⟨_ | _, db1⟩
            · exact hcatch _ _
            · simp only
              rcases Lambda.execute env db1 (.insert s) with ⟨_ | _, db2⟩
              · exact hclose _ _
              · exact wellFormed_closing _ _ _ _ (by decide)

theorem wellFormed_route (env : Lambda.Env) (db : Database) (ev : Lambda.Event) :
    WellFormed (Lambda.route env db ev) := by
  unfold Lambda.route
  split
  · exact wellFormed_getSubmissions env db
  · split
    · exact wellFormed_error _ _
    · exact wellFormed_getSubmission env db _
    · split
      · exact wellFormed_createSubmission env db _
      · split
        · exact wellFormed_error _ _
        · exact wellFormed_deleteSubmission env db _
        · exact wellFormed_ok _ _ _ (by decide)

/-- C7: for every event object and every behaviour of the database (any table, failure
of the connection, of the query or of the close, each with any message), the handler
returns a response and throws nothing; the status code of the response is one of 200, 201,
400, 404 and 500 and its headers are the CORS headers; and an error that leaves a route
operation, or the routing itself, becomes status 500 with error `Internal server
error` and the message of that error. -/
theorem C7_handler_total (env : Lambda.Env) (db : Database) (ev : Lambda.Event) :
    (∃ r, (Lambda.handler env db (some ev)).1 = .ok r ∧
      r.statusCode ∈ [200, 201, 400, 404, 500] ∧ r.headers = Lambda.corsHeaders) ∧
    (∀ e, strictEq ev.httpMethod "OPTIONS" = false → (Lambda.route env db ev).1 = .error e →
      (Lambda.handler env db (some ev)).1 =
        .ok (Lambda.createResponse 500 (.errorMessage "Internal server error" e.message))) := by
  constructor
  · unfold Lambda.handler
    simp only
    split
    · exact ⟨_, rfl, by decide, rfl⟩
    · have hw := wellFormed_route env db ev
      rcases hr : Lambda.route env db ev with ⟨e | r, db1⟩
      · exact ⟨_, rfl, by simp [Lambda.createResponse], rfl⟩
      · rw [hr] at hw
        exact ⟨r, rfl, hw r rfl⟩
  · intro e ho he
    unfold Lambda.handler
    simp only [ho]
    rcases hr : Lambda.route env db ev with ⟨e1 | r, db1⟩
    · rw [hr] at he
      simp only [Except.error.injEq] at he
      subst he
      rfl
    · rw [hr] at he
      cases he

/-- C7 at a DELETE event whose connection fails to close after the row was removed. -/
theorem C7_handler_total_witness :
    (Lambda.handler ⟨⟨none, none, some "socket closed"⟩, "id-1", 0⟩
        ⟨[⟨"k", .str "A", .str "B", .str "a@b.com", .null, .str "x", .str "y", .str "weekly",
          .null, false, 0⟩], []⟩
        (some ⟨.str "DELETE", .str "/submissions/k", .obj [("id", .str "k")], none⟩)).1 =
      .ok (Lambda.createResponse 500 (.errorMessage "Internal server error" "socket closed")) :=
  (C7_handler_total ⟨⟨none, none, some "socket closed"⟩, "id-1", 0⟩
    ⟨[⟨"k", .str "A", .str "B", .str "a@b.com", .null, .str "x", .str "y", .str "weekly",
      .null, false, 0⟩], []⟩
    ⟨.str "DELETE", .str "/submissions/k", .obj [("id", .str "k")], none⟩).2
    (.error "socket closed") rfl rfl

/-! ## Reading and deleting by id -/

theorem filter_id_eq_nil (t : List Submission) (id : String) (h : ∀ r ∈ t, r.id ≠ id) :
    t.filter (idMatches (.str id)) = [] := by
  rw [List.filter_eq_nil_iff]
  intro r hr
  simpa [idMatches] using fun e => h r hr e.symm

theorem filter_not_id_eq_self (t : List Submission) (id : String) (h : ∀ r ∈ t, r.id ≠ id) :
    t.filter (fun r => !idMatches (.str id) r) = t := by
  rw [List.filter_eq_self]
  intro r hr
  simpa [idMatches] using fun e => h r hr e.symm

theorem filter_id_ne_nil (t : List Submission) (id : String) (row : Submission)
    (hrow : row ∈ t) (hid : row.id = id) : (t.filter (idMatches (.str id))).length ≠ 0 := by
  intro h0
  have hnil := List.length_eq_zero.mp h0
  rw [List.filter_eq_nil_iff] at hnil
  exact hnil row hrow (by simp [idMatches, hid])

/-- In a table whose ids are distinct, deleting an id that has a row removes one row. -/
theorem filter_not_id_length (t : List Submission) (id : String) (row : Submission)
    (hkey : (t.map (fun r => r.id)).Nodup) (hrow : row ∈ t) (hid : row.id = id) :
    (t.filter (fun r => !idMatches (.str id) r)).length + 1 = t.length := by
  induction t with
  | nil => cases hrow
  | cons x xs ih =>
    simp only [List.map_cons, List.nodup_cons, List.mem_map, not_exists, not_and] at hkey
    by_cases hx : x.id = id
    · have hrest : ∀ r ∈ xs, r.id ≠ id := by
        intro r hr e
        exact hkey.1 r hr (e.trans hx.symm)
      have hf := filter_not_id_eq_self xs id hrest
      have hm : idMatches (.str id) x = true := by simp [idMatches, hx]
      simp [List.filter_cons, hm, hf]
    · have hrow2 : row ∈ xs := by
        rcases List.mem_cons.mp hrow with e | e
        · exact absurd (e ▸ hid) hx
        · exact e
      have hm : idMatches (.str id) x = false := by
        simpa [idMatches] using fun e : id = x.id => hx e.symm
      simp [List.filter_cons, hm, ih hkey.2 hrow2]

/-- C8: with the table modelled as a finite map from id to row (the ids of the rows are
distinct) and working storage, in both variants: GET by an id without a row yields 404
`Submission not found`; DELETE of an id without a row yields 404 and leaves the table
as it was; DELETE of an id with a row yields 200 with the confirmation message and
leaves exactly the rows with another id, one row fewer than before, and a GET of that
id afterwards yields 404. -/
theorem C8_get_delete (env : Lambda.Env) (senv : Server.Env) (db : Database) (id : String)
    (h1 : env.faults.connect = none) (h2 : env.faults.query = none)
    (h3 : env.faults.close = none) (hs : senv.queryError = none)
    (hkey : (db.table.map (fun r => r.id)).Nodup) :
    ((∀ r ∈ db.table, r.id ≠ id) →
      (Lambda.getSubmission env db (.str id)).1 =
        .ok (Lambda.createResponse 404 (.error "Submission not found")) ∧
      (Server.getApiSubmissionsId senv db id).1 = ⟨404, .error "Submission not found"⟩ ∧
      (Lambda.deleteSubmission env db (.str id)).1 =
        .ok (Lambda.createResponse 404 (.error "Submission not found")) ∧
      (Lambda.deleteSubmission env db (.str id)).2.table = db.table ∧
      (Server.deleteApiSubmissionsId senv db id).1 = ⟨404, .error "Submission not found"⟩ ∧
      (Server.deleteApiSubmissionsId senv db id).2.table = db.table) ∧
    (∀ row ∈ db.table, row.id = id →
      ((Lambda.deleteSubmission env db (.str id)).1 =
        .ok (Lambda.createResponse 200 (.message "Submission deleted successfully")) ∧
       (∀ r, r ∈ (Lambda.deleteSubmission env db (.str id)).2.table ↔ r ∈ db.table ∧ r.id ≠ id) ∧
       (Lambda.deleteSubmission env db (.str id)).2.table.length + 1 = db.table.length ∧
       (Lambda.getSubmission env (Lambda.deleteSubmission env db (.str id)).2 (.str id)).1 =
        .ok (Lambda.createResponse 404 (.error "Submission not found"))) ∧
      ((Server.deleteApiSubmissionsId senv db id).1 =
        ⟨200, .message "Submission deleted successfully"⟩ ∧
       (∀ r, r ∈ (Server.deleteApiSubmissionsId senv db id).2.table ↔ r ∈ db.table ∧ r.id ≠ id) ∧
       (Server.deleteApiSubmissionsId senv db id).2.table.length + 1 = db.table.length ∧
       (Server.getApiSubmissionsId senv (Server.deleteApiSubmissionsId senv db id).2 id).1 =
        ⟨404, .error "Submission not found"⟩)) := by
  have hget : ∀ d : Database, (∀ r ∈ d.table, r.id ≠ id) →
      (Lambda.getSubmission env d (.str id)).1 =
        .ok (Lambda.createResponse 404 (.error "Submission not found")) ∧
      (Server.getApiSubmissionsId senv d id).1 = ⟨404, .error "Submission not found"⟩ := by
    intro d hd
    have hf := filter_id_eq_nil d.table id hd
    constructor
    · simp [Lambda.getSubmission, Lambda.getConnection, Lambda.execute, Lambda.closing,
        Database.record, runStatement, h1, h2, h3, hf]
    · simp [Server.getApiSubmissionsId, Server.query, runStatement, hs, hf]
  have hdelL : Lambda.deleteSubmission env db (.str id) =
      (if (db.table.filter (idMatches (.str id))).length = 0 then
          .ok (Lambda.createResponse 404 (.error "Submission not found"))
        else .ok (Lambda.createResponse 200 (.message "Submission deleted successfully")),
        ⟨db.table.filter (fun r => !idMatches (.str id) r),
          db.log ++ [.connect, .query (.deleteById (.str id)), .close]⟩) := by
    simp only [Lambda.deleteSubmission, Lambda.getConnection, Lambda.execute, Lambda.closing,
      Database.record, runStatement, h1, h2, h3]
    split <;> simp
  have hdelS : Server.deleteApiSubmissionsId senv db id =
      (if (db.table.filter (idMatches (.str id))).length = 0 then
          ⟨404, .error "Submission not found"⟩
        else ⟨200, .message "Submission deleted successfully"⟩,
        ⟨db.table.filter (fun r => !idMatches (.str id) r),
          db.log ++ [.query (.deleteById (.str id))]⟩) := by
    simp only [Server.deleteApiSubmissionsId, Server.query, runStatement, hs]
    split <;> simp
  have hmem : ∀ r, r ∈ db.table.filter (fun r => !idMatches (.str id) r) ↔
      r ∈ db.table ∧ r.id ≠ id := by
    intro r
    rw [List.mem_filter]
    constructor
    · rintro ⟨hr, hne⟩
      refine ⟨hr, fun e => ?_⟩
      simp [idMatches, e] at hne
    · rintro ⟨hr, hne⟩
      refine ⟨hr, ?_⟩
      simpa [idMatches] using fun e : id = r.id => hne e.symm
  constructor
  · intro hno
    have hf := filter_id_eq_nil db.table id hno
    have hf2 := filter_not_id_eq_self db.table id hno
    refine ⟨(hget db hno).1, (hget db hno).2, ?_, ?_, ?_, ?_⟩
    · rw [hdelL]; simp [hf]
    · rw [hdelL]; simp [hf2]
    · rw [hdelS]; simp [hf]
    · rw [hdelS]; simp [hf2]
  · intro row hrow hid
    have hne := filter_id_ne_nil db.table id row hrow hid
    have hlen := filter_not_id_length db.table id row hkey hrow hid
    have hgone : ∀ r ∈ db.table.filter (fun r => !idMatches (.str id) r), r.id ≠ id :=
      fun r hr => ((hmem r).mp hr).2
    refine ⟨⟨?_, ?_, ?_, ?_⟩, ⟨?_, ?_, ?_, ?_⟩⟩
    · rw [hdelL]; simp [hne]
    · rw [hdelL]; exact hmem
    · rw [hdelL]; exact hlen
    · rw [hdelL]; exact (hget _ hgone).1
    · rw [hdelS]; simp [hne]
    · rw [hdelS]; exact hmem
    · rw [hdelS]; exact hlen
    · rw [hdelS]; exact (hget _ hgone).2

/-- C8 at a table of two rows, deleting the id `k1`. -/
theorem C8_get_delete_witness :
    (Lambda.deleteSubmission ⟨⟨none, none, none⟩, "id-1", 0⟩
        ⟨[⟨"k1", .str "A", .str "B", .str "a@b.com", .null, .str "x", .str "y", .str "weekly",
            .null, false, 0⟩,
          ⟨"k2", .str "C", .str "D", .str "c@d.org", .null, .str "x", .str "y", .str "weekly",
            .null, false, 1⟩], []⟩ (.str "k1")).1 =
      .ok (Lambda.createResponse 200 (.message "Submission deleted successfully")) :=
  ((C8_get_delete ⟨⟨none, none, none⟩, "id-1", 0⟩ ⟨none, "id-1", 0⟩
    ⟨[⟨"k1", .str "A", .str "B", .str "a@b.com", .null, .str "x", .str "y", .str "weekly",
        .null, false, 0⟩,
      ⟨"k2", .str "C", .str "D", .str "c@d.org", .null, .str "x", .str "y", .str "weekly",
        .null, false, 1⟩], []⟩ "k1" rfl rfl rfl rfl (by decide)).2
    ⟨"k1", .str "A", .str "B", .str "a@b.com", .null, .str "x", .str "y", .str "weekly",
      .null, false, 0⟩ (List.mem_cons_self _ _) rfl).1.1

/-! ## Storage errors -/

/-- C9, counterexample: when the query of the server's list route fails with message
`ER_ACCESS_DENIED`, the body of the 500 response is the fixed text alone and carries no
message; and when the handler's connection fails with message `ECONNREFUSED`, the body of
the 500 response carries `Database connection failed` in its place. -/
theorem C9_message_dropped_counterexample :
    Server.getApiSubmissions ⟨some "ER_ACCESS_DENIED", "id-1", 0⟩ ⟨[], []⟩ =
      (⟨500, .error "Failed to fetch submissions"⟩, ⟨[], [.query .selectAll]⟩) ∧
    (Body.error "Failed to fetch submissions").messageText = none ∧
    Lambda.getSubmissions ⟨⟨some "ECONNREFUSED", none, none⟩, "id-1", 0⟩ ⟨[], []⟩ =
      (.ok (Lambda.createResponse 500
        (.errorMessage "Failed to fetch submissions" "Database connection failed")),
        ⟨[], [.connect]⟩) :=
  ⟨rfl, rfl, rfl⟩

theorem callTrim_error (v : JSValue) (e : JSError) (h : callTrim v = .error e) :
    e.isSyntaxError = false := by
  cases v <;> simp [callTrim] at h <;> subst h <;> rfl

theorem trimOrNull_error (v : JSValue) (e : JSError) (h : Lambda.trimOrNull v = .error e) :
    e.isSyntaxError = false := by
  unfold Lambda.trimOrNull at h
  cases ht : v.truthy
  · simp [ht] at h
  · simp only [ht, if_true] at h
    exact callTrim_error v e h

/-- An error thrown while the handler builds the record is not a SyntaxError. -/
theorem lambda_buildSubmission_error (env : Lambda.Env) (data : JSValue) (e : JSError)
    (h : Lambda.buildSubmission env data = .error e) : e.isSyntaxError = false := by
  unfold Lambda.buildSubmission at h
  cases h1 : callTrim (data.getProp "firstName") with
  | error e1 =>
    simp [h1, bind, Except.bind] at h
    exact h ▸ callTrim_error _ _ h1
  | ok fn =>
    cases h2 : callTrim (data.getProp "lastName") with
    | error e2 =>
      simp [h1, h2, bind, Except.bind] at h
      exact h ▸ callTrim_error _ _ h2
    | ok ln =>
      cases h3 : callTrim (data.getProp "email") with
      | error e3 =>
        simp [h1, h2, h3, bind, Except.bind] at h
        exact h ▸ callTrim_error _ _ h3
      | ok em =>
        cases h4 : Lambda.trimOrNull (data.getProp "phone") with
        | error e4 =>
          simp [h1, h2, h3, h4, bind, Except.bind] at h
          exact h ▸ trimOrNull_error _ _ h4
        | ok ph =>
          cases h5 : Lambda.trimOrNull (data.getProp "comments") with
          | error e5 =>
            simp [h1, h2, h3, h4, h5, bind, Except.bind] at h
            exact h ▸ trimOrNull_error _ _ h5
          | ok co =>
            simp [h1, h2, h3, h4, h5, bind, Except.bind, pure, Except.pure] at h

/-- C9, amended: in both variants and for each of the four operations (for create: for
every payload that passed validation) a failure of the connection or of the query with
message `m` yields status 500.  In the handler variant the body carries `m` when the
query fails and the connection then closes normally, and carries the fixed message
`Database connection failed` when the connection fails; when the close fails too, with
message `m2`, the handler answers 500 `Internal server error` with `m2` (for create
these three bodies are those of a payload whose record the handler has built, `s` being
that record).  In the server variant the body is the fixed error text of the route and
carries no message. -/
theorem C9_storage_errors (env : Lambda.Env) (senv : Server.Env) (db : Database)
    (id : JSValue) (sid : String) (data : JSValue) (m : String)
    (hm : requiredMissing data = false)
    (hv : isValidEmail (data.getProp "email") = .ok true) :
    (env.faults.connect = some m →
      (Lambda.getSubmissions env db).1 = .ok (Lambda.createResponse 500
        (.errorMessage "Failed to fetch submissions" "Database connection failed")) ∧
      (Lambda.getSubmission env db id).1 = .ok (Lambda.createResponse 500
        (.errorMessage "Failed to fetch submission" "Database connection failed")) ∧
      (∀ s, Lambda.buildSubmission env data = .ok s →
        (Lambda.createSubmission env db (some data)).1 = .ok (Lambda.createResponse 500
          (.errorMessage "Failed to create submission" "Database connection failed"))) ∧
      (Lambda.deleteSubmission env db id).1 = .ok (Lambda.createResponse 500
        (.errorMessage "Failed to delete submission" "Database connection failed"))) ∧
    (env.faults.connect = none → env.faults.query = some m → env.faults.close = none →
      (Lambda.getSubmissions env db).1 = .ok (Lambda.createResponse 500
        (.errorMessage "Failed to fetch submissions" m)) ∧
      (Lambda.getSubmission env db id).1 = .ok (Lambda.createResponse 500
        (.errorMessage "Failed to fetch submission" m)) ∧
      (∀ s, Lambda.buildSubmission env data = .ok s →
        (Lambda.createSubmission env db (some data)).1 = .ok (Lambda.createResponse 500
          (.errorMessage "Failed to create submission" m))) ∧
      (Lambda.deleteSubmission env db id).1 = .ok (Lambda.createResponse 500
        (.errorMessage "Failed to delete submission" m))) ∧
    (∀ m2, env.faults.connect = none → env.faults.query = some m →
      env.faults.close = some m2 →
      (Lambda.catchAll (Lambda.getSubmissions env db)).1 = .ok (Lambda.createResponse 500
        (.errorMessage "Internal server error" m2)) ∧
      (Lambda.catchAll (Lambda.getSubmission env db id)).1 = .ok (Lambda.createResponse 500
        (.errorMessage "Internal server error" m2)) ∧
      (∀ s, Lambda.buildSubmission env data = .ok s →
        (Lambda.catchAll (Lambda.createSubmission env db (some data))).1 =
          .ok (Lambda.createResponse 500 (.errorMessage "Internal server error" m2))) ∧
      (Lambda.catchAll (Lambda.deleteSubmission env db id)).1 = .ok (Lambda.createResponse 500
        (.errorMessage "Internal server error" m2))) ∧
    ((env.faults.connect = some m ∨ env.faults.query = some m) →
      ∃ r, (Lambda.catchAll (Lambda.createSubmission env db (some data))).1 = .ok r ∧
        r.statusCode = 500) ∧
    (senv.queryError = some m →
      (Server.getApiSubmissions senv db).1 = ⟨500, .error "Failed to fetch submissions"⟩ ∧
      (Server.getApiSubmissionsId senv db sid).1 = ⟨500, .error "Failed to fetch submission"⟩ ∧
      (Server.postApiSubmissions senv db data).1 =
        .ok ⟨500, .error "Failed to create submission"⟩ ∧
      (Server.deleteApiSubmissionsId senv db sid).1 =
        ⟨500, .error "Failed to delete submission"⟩) := by
  have hp := server_post_valid senv db data hm hv
  refine ⟨?_, ?_, ?_, ?_, ?_⟩
  · intro h1
    refine ⟨?_, ?_, ?_, ?_⟩
    · simp [Lambda.getSubmissions, Lambda.getConnection, h1, JSError.message]
    · simp [Lambda.getSubmission, Lambda.getConnection, h1, JSError.message]
    · intro s hb
      rw [lambda_create_built env db data s hm hv hb]
      simp [Lambda.getConnection, h1, JSError.message, Lambda.createCatch,
        JSError.isSyntaxError]
    · simp [Lambda.deleteSubmission, Lambda.getConnection, h1, JSError.message]
  · intro h1 h2 h3
    refine ⟨?_, ?_, ?_, ?_⟩
    · simp [Lambda.getSubmissions, Lambda.getConnection, Lambda.execute, Lambda.closing, h1, h2,
        h3, JSError.message]
    · simp [Lambda.getSubmission, Lambda.getConnection, Lambda.execute, Lambda.closing, h1, h2,
        h3, JSError.message]
    · intro s hb
      rw [lambda_create_built env db data s hm hv hb]
      simp [Lambda.getConnection, Lambda.execute, Lambda.closing, h1, h2, h3, JSError.message,
        Lambda.createCatch, JSError.isSyntaxError]
    · simp [Lambda.deleteSubmission, Lambda.getConnection, Lambda.execute, Lambda.closing, h1,
        h2, h3, JSError.message]
  · intro m2 h1 h2 h3
    refine ⟨?_, ?_, ?_, ?_⟩
    · simp [Lambda.getSubmissions, Lambda.getConnection, Lambda.execute, Lambda.closing, h1, h2,
        h3, JSError.message, Lambda.catchAll]
    · simp [Lambda.getSubmission, Lambda.getConnection, Lambda.execute, Lambda.closing, h1, h2,
        h3, JSError.message, Lambda.catchAll]
    · intro s hb
      rw [lambda_create_built env db data s hm hv hb]
      simp [Lambda.getConnection, Lambda.execute, Lambda.closing, h1, h2, h3, JSError.message,
        Lambda.catchAll]
    · simp [Lambda.deleteSubmission, Lambda.getConnection, Lambda.execute, Lambda.closing, h1,
        h2, h3, JSError.message, Lambda.catchAll]
  · intro hfail
    cases hb : Lambda.buildSubmission env data with
    | error e =>
      have he := lambda_buildSubmission_error env data e hb
      rw [lambda_create_throws env db data e hm hv hb]
      exact ⟨_, rfl, by simp [Lambda.createCatch, he, Lambda.createResponse]⟩
    | ok s =>
      rw [lambda_create_built env db data s hm hv hb]
      cases h1 : env.faults.connect with
      | some m1 =>
        exact ⟨_, by simp [Lambda.getConnection, h1, Lambda.catchAll]; rfl,
          by simp [Lambda.createCatch, JSError.isSyntaxError, Lambda.createResponse]⟩
      | none =>
        have h2 : env.faults.query = some m := by
          rcases hfail with h | h
          · rw [h1] at h; cases h
          · exact h
        cases h3 : env.faults.close with
        | none =>
          exact ⟨_, by simp [Lambda.getConnection, Lambda.execute, Lambda.closing, h1, h2, h3,
            Lambda.catchAll]; rfl,
            by simp [Lambda.createCatch, JSError.isSyntaxError, Lambda.createResponse]⟩
        | some m2 =>
          exact ⟨_, by simp [Lambda.getConnection, Lambda.execute, Lambda.closing, h1, h2, h3,
            Lambda.catchAll]; rfl, by simp [Lambda.createResponse]⟩
  · intro h1
    refine ⟨?_, ?_, ?_, ?_⟩
    · simp [Server.getApiSubmissions, Server.query, h1]
    · simp [Server.getApiSubmissionsId, Server.query, h1]
    · rw [hp]; simp [Server.query, h1]
    · simp [Server.deleteApiSubmissionsId, Server.query, h1]

/-- C9 at a payload whose `firstName` is the number 5 and a server query that fails with
`ER_LOCK_DEADLOCK`. -/
theorem C9_storage_errors_witness :
    (Server.getApiSubmissions ⟨some "ER_LOCK_DEADLOCK", "id-1", 7⟩ ⟨[], []⟩).1 =
        ⟨500, .error "Failed to fetch submissions"⟩ ∧
      (Server.getApiSubmissionsId ⟨some "ER_LOCK_DEADLOCK", "id-1", 7⟩ ⟨[], []⟩ "k").1 =
        ⟨500, .error "Failed to fetch submission"⟩ ∧
      (Server.postApiSubmissions ⟨some "ER_LOCK_DEADLOCK", "id-1", 7⟩ ⟨[], []⟩
          (.obj [("firstName", .num 5), ("lastName", .str "B"), ("email", .str "a@b.com"),
            ("interests", .str "x"), ("subscription", .str "y")])).1 =
        .ok ⟨500, .error "Failed to create submission"⟩ ∧
      (Server.deleteApiSubmissionsId ⟨some "ER_LOCK_DEADLOCK", "id-1", 7⟩ ⟨[], []⟩ "k").1 =
        ⟨500, .error "Failed to delete submission"⟩ :=
  (C9_storage_errors ⟨⟨none, some "ER_LOCK_DEADLOCK", none⟩, "id-1", 7⟩
    ⟨some "ER_LOCK_DEADLOCK", "id-1", 7⟩ ⟨[], []⟩ (.str "k") "k"
    (.obj [("firstName", .num 5), ("lastName", .str "B"), ("email", .str "a@b.com"),
      ("interests", .str "x"), ("subscription", .str "y")])
    "ER_LOCK_DEADLOCK" (by decide) rfl).2.2.2.2 rfl
